import Mathlib

/-!
# FasterTransformer v2.1 — the TorchScript encoder op

A shallow embedding of `fastertransformer/th_op/encoder_ths_op.cc`
(namespace `torch_ths`): the constructor of `FasterTransformerEncoder`,
its `forward` method and `get_pickle_info`.

Conventions of the embedding

* A C++ exception is a value of `Error`; a function that may throw returns
  `Except Error _`.
* `at::Tensor` is a handle that is either undefined or points at a tensor
  object; the object carries the attributes this file reads (device,
  contiguity, scalar type, sizes) and its element payload.
* `int64_t` values are `Int`; the narrowing `int x = <int64_t>` is the explicit
  wrap `toInt32`.
* The compute kernel (`torch_ext::FTEncoder<T>`, declared in a header that is
  not part of this file) is a parameter, `Runtime`.
* Every call of the kernel and every `new` of a kernel handle is recorded in
  the result, so that "the kernel is not invoked" is a statement about a value.
-/

set_option linter.dupNamespace false

namespace torch_ths

/-! ## Tensors -/

/-- The scalar types of `at::ScalarType`. -/
inductive ScalarType where
  | Byte | Char | Short | Int | Long | Half | Float | Double
  | ComplexHalf | ComplexFloat | ComplexDouble | Bool
  | QInt8 | QUInt8 | QInt32 | BFloat16 | Undefined
  deriving DecidableEq, Repr

/-- The tensor object behind a defined handle. `impl` is the identity of the
object (two handles are the same tensor when they point at the same object),
`sizes` are `int64_t` extents, `data` is the element payload, one integer bit
pattern per element. -/
structure TensorImpl where
  impl : Nat
  is_cuda : Bool
  is_contiguous : Bool
  scalar_type : ScalarType
  sizes : List Int
  data : List Int
  deriving DecidableEq, Repr

/-- The handle `at::Tensor`: undefined (default constructed, an omitted
argument) or a reference to a tensor object. Copying a handle copies the
reference, never the object. -/
inductive Tensor where
  | undefined
  | defined (t : TensorImpl)
  deriving DecidableEq, Repr

/-- The property a check establishes; it is carried by the exception of the
check that fails. -/
inductive Requirement where
  | cuda         -- CHECK_CUDA: x.is_cuda()
  | contiguous   -- CHECK_CONTIGUOUS: x.is_contiguous()
  | type         -- the scalar type comparison of CHECK_INPUT
  | int32        -- "sequence_length dtype should be int32"
  | nonempty     -- "sequence_length should not be empty tensor"
  | shape        -- "wrong sequence_length shape"
  | sizes        -- sizes() called on an undefined tensor
  | dim0         -- size(0) called on a tensor without dimensions
  deriving DecidableEq, Repr

/-- The sixteen weight parameters of the constructor, by their C++ names, in
declaration order. -/
inductive WeightName where
  | q_kernel | q_bias | k_kernel | k_bias | v_kernel | v_bias
  | attr_output_kernel | attr_output_bias
  | attr_output_layernorm_gamma | attr_output_layernorm_beta
  | inter_kernel | inter_bias | output_kernel | output_bias
  | output_layernorm_gamma | output_layernorm_beta
  deriving DecidableEq, Repr

/-- The three tensor parameters of `forward`, by their C++ names. -/
inductive CallArg where
  | input | attr_mask | sequence_lengths
  deriving DecidableEq, Repr

/-- The C++ exceptions of this file, by the place that throws them.

* `InvalidWeight x p`: a `CHECK_INPUT(x, _st)` of the constructor failed on
  property `p` of weight `x`.
* `UnsupportedPrecision`: the `default:` branch of the constructor,
  `throw std::runtime_error("Wrong Tensor type.")`.
* `InvalidInput x p`: a check of `forward` failed on property `p` of the
  per-call argument `x`, or an accessor called on `x` threw.
* `KernelFailure`: an exception leaving `ftencoder->forward(...)`. -/
inductive Error where
  | InvalidWeight (x : WeightName) (p : Requirement)
  | UnsupportedPrecision
  | InvalidInput (x : CallArg) (p : Requirement)
  | KernelFailure (what : String)
  deriving DecidableEq, Repr

namespace Tensor

/-- Accessor `x.is_cuda()`: an undefined tensor is on no device. -/
def is_cuda : Tensor → Bool
  | undefined => false
  | defined t => t.is_cuda

/-- Accessor `x.is_contiguous()`. The value for an undefined tensor is never
consulted by this file, because the device check always runs first. -/
def is_contiguous : Tensor → Bool
  | undefined => true
  | defined t => t.is_contiguous

/-- Accessor `x.scalar_type()`; `x.dtype()` carries the same information. -/
def scalar_type : Tensor → ScalarType
  | undefined => ScalarType.Undefined
  | defined t => t.scalar_type

/-- Accessor `x.sizes()`: throws on an undefined tensor. -/
def sizes : Tensor → Option (List Int)
  | undefined => none
  | defined t => some t.sizes

/-- Accessor `x.numel()`: the product of the extents, 0 when undefined. -/
def numel : Tensor → Int
  | undefined => 0
  | defined t => t.sizes.prod

/-- Accessor `x.size(0)`: throws when the tensor has no dimension 0. -/
def size0 : Tensor → Option Int
  | undefined => none
  | defined t => t.sizes.head?

/-- The element payload, empty when undefined. -/
def data : Tensor → List Int
  | undefined => []
  | defined t => t.data

/-- The same tensor object with buffer contents `d`. -/
def withData (d : List Int) : Tensor → Tensor
  | undefined => undefined
  | defined t => defined { t with data := d }

/-- Two tensors are bit-identical: same shape, same scalar type, same
element payload (they may still be distinct objects). -/
def bitIdentical (a b : Tensor) : Prop :=
  a.sizes = b.sizes ∧ a.scalar_type = b.scalar_type ∧ a.data = b.data

end Tensor

/-- The narrowing conversion `int64_t → int` (two's complement wrap). -/
def toInt32 (x : Int) : Int := (x + 2 ^ 31) % 2 ^ 32 - 2 ^ 31

/-- What an allocation hands back: the identity of the fresh object and the
prior contents of its buffer (`torch::empty` does not clear memory). -/
structure Mem where
  fresh : Nat
  uninit : Nat → Int

/-- Allocation `torch::empty({n}, torch::dtype(torch::kInt64))`: a CPU tensor. -/
def empty_int64 (mem : Mem) (n : Nat) : TensorImpl :=
  { impl := mem.fresh, is_cuda := false, is_contiguous := true,
    scalar_type := ScalarType.Long, sizes := [(n : Int)],
    data := (List.range n).map mem.uninit }

/-- Allocation `torch::empty_like(x)`: same sizes, scalar type and device as
`x`, uninitialised contents. (Reached only with a contiguous `x`, for which
the result is contiguous as well.) -/
def empty_like (mem : Mem) : Tensor → Tensor
  | Tensor.undefined => Tensor.undefined
  | Tensor.defined t =>
    Tensor.defined
      { impl := mem.fresh, is_cuda := t.is_cuda, is_contiguous := t.is_contiguous,
        scalar_type := t.scalar_type, sizes := t.sizes,
        data := (List.range t.sizes.prod.toNat).map mem.uninit }

/-- Element assignment `t[i] = v` on a one-dimensional tensor. -/
def TensorImpl.setItem (t : TensorImpl) (i : Nat) (v : Int) : TensorImpl :=
  { t with data := t.data.set i v }

/-- Indexing `input_size[i]` of an `IntArrayRef`, which is not bounds checked:
past the end it yields whatever the adjacent memory holds, `stray i`. -/
def arrayRefGet (stray : Nat → Int) (xs : List Int) (i : Nat) : Int :=
  xs.getD i (stray i)

/-! ## The check macros -/

/-- Modelled from the spec: the macro `CHECK_CUDA` is defined in a header that
is not part of the source at hand; per §4.1 (a) it requires the tensor to be
resident on the compute device and its failure identifies the tensor and the
property. `mk` builds the exception for the call site. -/
def CHECK_CUDA (mk : Requirement → Error) (x : Tensor) : Except Error Unit :=
  if x.is_cuda then pure () else throw (mk Requirement.cuda)

/-- Modelled from the spec: the macro `CHECK_CONTIGUOUS`, §4.1 (b): the tensor
must be contiguous in memory. -/
def CHECK_CONTIGUOUS (mk : Requirement → Error) (x : Tensor) : Except Error Unit :=
  if x.is_contiguous then pure () else throw (mk Requirement.contiguous)

/-- Modelled from the spec: the macro `CHECK_INPUT(x, st)`, §4.1: (a) on the
compute device, (b) contiguous, (c) of the declared scalar type, checked in
that order, the first violation thrown. -/
def CHECK_INPUT (mk : Requirement → Error) (x : Tensor) (st : ScalarType) :
    Except Error Unit := do
  CHECK_CUDA mk x
  CHECK_CONTIGUOUS mk x
  if x.scalar_type = st then pure () else throw (mk Requirement.type)

/-- The macro `TORCH_CHECK(cond, msg)`. -/
def TORCH_CHECK (cond : Bool) (e : Error) : Except Error Unit :=
  if cond then pure () else throw e

/-! ## The compute kernel -/

/-- The two specialisations `FTEncoder<float>` and `FTEncoder<half>`. -/
inductive Precision where
  | float | half
  deriving DecidableEq, Repr

/-- Modelled from the spec: the kernel handle `torch_ext::FTEncoder<T>` is
declared in a header that is not part of the source at hand. Per §4.2 step 3
it is constructed from head_count, head_size and the weight set, which it
views for its lifetime. `state` stands for whatever the handle keeps between
calls (`ftencoder->forward` is a non-const call). -/
structure FTEncoder where
  T : Precision
  head_num : Int
  head_size : Int
  weights : List Tensor
  state : Nat
  deriving DecidableEq, Repr

/-- The argument list of one `ftencoder->forward(...)` call. -/
structure KernelCall where
  batch_size : Int
  seq_len : Int
  input : Tensor
  attr_mask : Tensor
  output : Tensor
  sequence_lengths : Tensor
  remove_padding : Bool
  deriving DecidableEq, Repr

/-- Modelled from the spec: everything this file's code depends on without
defining it.

* `create`: the internal state of a freshly constructed kernel handle
  (§4.2 step 3 names no failure of that constructor).
* `execute`: one kernel run, the capability
  `execute(batch_size, seq_len, input, attention_mask, output,
  sequence_lengths, remove_padding)` of §1. It yields the handle's next
  internal state and either the contents it wrote to the output buffer (the
  kernel is the sole writer of output, §4.3) or the exception it raised
  (`KernelFailure`, §7).
* `stray`: the value an out-of-range `input_size[i]` reads (the memory next
  to the sizes array, which no code of this file writes). -/
structure Runtime where
  create : Precision → Int → Int → List Tensor → Nat
  execute : FTEncoder → KernelCall → Nat × Except String (List Int)
  stray : Nat → Int

/-! ## The module -/

/-- The sixteen tensor parameters of the constructor, in declaration order. -/
structure WeightArgs where
  q_kernel : Tensor
  q_bias : Tensor
  k_kernel : Tensor
  k_bias : Tensor
  v_kernel : Tensor
  v_bias : Tensor
  attr_output_kernel : Tensor
  attr_output_bias : Tensor
  attr_output_layernorm_gamma : Tensor
  attr_output_layernorm_beta : Tensor
  inter_kernel : Tensor
  inter_bias : Tensor
  output_kernel : Tensor
  output_bias : Tensor
  output_layernorm_gamma : Tensor
  output_layernorm_beta : Tensor
  deriving DecidableEq, Repr

/-- The data members of `class FasterTransformerEncoder`. -/
structure FasterTransformerEncoder where
  _st : ScalarType
  _remove_padding : Bool
  weights : List Tensor
  ftencoder : FTEncoder
  head_info : Tensor
  deriving DecidableEq, Repr

/-- The outcome of running the constructor: the module or the exception, and
the kernel handles that were allocated with `new` on the way. -/
structure Constructed where
  result : Except Error torch_ths.FasterTransformerEncoder
  handles : List FTEncoder

/-- The constructor `FasterTransformerEncoder::FasterTransformerEncoder`
(lines 22-77): member initialisers, sixteen `CHECK_INPUT`s, the switch on
`_st`, then `head_info`. -/
def FasterTransformerEncoder.FasterTransformerEncoder (R : Runtime) (mem : Mem)
    (head_num head_size : Int) (remove_padding : Bool) (w : WeightArgs) : Constructed :=
  let _st := w.q_kernel.scalar_type
  let _remove_padding := remove_padding
  let weights :=
    [w.q_kernel, w.q_bias, w.k_kernel, w.k_bias, w.v_kernel, w.v_bias,
     w.attr_output_kernel, w.attr_output_bias, w.attr_output_layernorm_gamma,
     w.attr_output_layernorm_beta,
     w.inter_kernel, w.inter_bias, w.output_kernel, w.output_bias,
     w.output_layernorm_gamma, w.output_layernorm_beta]
  let checks : Except Error Unit := do
    CHECK_INPUT (Error.InvalidWeight WeightName.q_kernel) w.q_kernel _st
    CHECK_INPUT (Error.InvalidWeight WeightName.q_bias) w.q_bias _st
    CHECK_INPUT (Error.InvalidWeight WeightName.k_kernel) w.k_kernel _st
    CHECK_INPUT (Error.InvalidWeight WeightName.k_bias) w.k_bias _st
    CHECK_INPUT (Error.InvalidWeight WeightName.v_kernel) w.v_kernel _st
    CHECK_INPUT (Error.InvalidWeight WeightName.v_bias) w.v_bias _st
    CHECK_INPUT (Error.InvalidWeight WeightName.attr_output_kernel) w.attr_output_kernel _st
    CHECK_INPUT (Error.InvalidWeight WeightName.attr_output_bias) w.attr_output_bias _st
    CHECK_INPUT (Error.InvalidWeight WeightName.attr_output_layernorm_gamma)
      w.attr_output_layernorm_gamma _st
    CHECK_INPUT (Error.InvalidWeight WeightName.attr_output_layernorm_beta)
      w.attr_output_layernorm_beta _st
    CHECK_INPUT (Error.InvalidWeight WeightName.inter_kernel) w.inter_kernel _st
    CHECK_INPUT (Error.InvalidWeight WeightName.inter_bias) w.inter_bias _st
    CHECK_INPUT (Error.InvalidWeight WeightName.output_kernel) w.output_kernel _st
    CHECK_INPUT (Error.InvalidWeight WeightName.output_bias) w.output_bias _st
    CHECK_INPUT (Error.InvalidWeight WeightName.output_layernorm_gamma)
      w.output_layernorm_gamma _st
    CHECK_INPUT (Error.InvalidWeight WeightName.output_layernorm_beta)
      w.output_layernorm_beta _st
  -- the statements after a taken `case`: `new FTEncoder<T>(...)`, then `head_info`
  let built (T : Precision) : Constructed :=
    let ftencoder : FTEncoder :=
      { T := T, head_num := head_num, head_size := head_size, weights := weights,
        state := R.create T head_num head_size weights }
    let head_info :=
      (((empty_int64 mem 3).setItem 0 head_num).setItem 1 head_size).setItem 2
        (if remove_padding then 1 else 0)
    { result := Except.ok
        { _st := _st, _remove_padding := _remove_padding, weights := weights,
          ftencoder := ftencoder, head_info := Tensor.defined head_info },
      handles := [ftencoder] }
  match checks with
  | Except.error e => { result := Except.error e, handles := [] }
  | Except.ok _ =>
    match _st with
    | ScalarType.Float => built Precision.float
    | ScalarType.Half => built Precision.half
    | _ => { result := Except.error Error.UnsupportedPrecision, handles := [] }

/-- The outcome of one `forward` call: the module afterwards, the returned
tensor or the exception, and the kernel invocations made, in order. -/
structure Forwarded where
  self : torch_ths.FasterTransformerEncoder
  result : Except Error Tensor
  calls : List KernelCall

/-- The method `FasterTransformerEncoder::forward` (lines 83-98). -/
def FasterTransformerEncoder.forward (R : Runtime) (mem : Mem)
    (self : torch_ths.FasterTransformerEncoder)
    (input attr_mask sequence_lengths : Tensor) : Forwarded :=
  match input.sizes with
  | none =>
    { self := self, calls := [],
      result := Except.error (Error.InvalidInput CallArg.input Requirement.sizes) }
  | some input_size =>
    let batch_size : Int := toInt32 (arrayRefGet R.stray input_size 0)
    let seq_len : Int := toInt32 (arrayRefGet R.stray input_size 1)
    let checks : Except Error Unit := do
      CHECK_INPUT (Error.InvalidInput CallArg.input) input self._st
      CHECK_INPUT (Error.InvalidInput CallArg.attr_mask) attr_mask self._st
      if self._remove_padding then
        CHECK_CUDA (Error.InvalidInput CallArg.sequence_lengths) sequence_lengths
        CHECK_CONTIGUOUS (Error.InvalidInput CallArg.sequence_lengths) sequence_lengths
        TORCH_CHECK (sequence_lengths.scalar_type = ScalarType.Int)
          (Error.InvalidInput CallArg.sequence_lengths Requirement.int32)
        TORCH_CHECK (sequence_lengths.numel ≠ 0)
          (Error.InvalidInput CallArg.sequence_lengths Requirement.nonempty)
        match sequence_lengths.size0 with
        | none =>
          throw (Error.InvalidInput CallArg.sequence_lengths Requirement.dim0)
        | some n =>
          TORCH_CHECK (n = batch_size)
            (Error.InvalidInput CallArg.sequence_lengths Requirement.shape)
    match checks with
    | Except.error e => { self := self, calls := [], result := Except.error e }
    | Except.ok _ =>
      let output := empty_like mem input
      let call : KernelCall :=
        { batch_size := batch_size, seq_len := seq_len, input := input,
          attr_mask := attr_mask, output := output,
          sequence_lengths := sequence_lengths, remove_padding := self._remove_padding }
      let ran := R.execute self.ftencoder call
      { self := { self with ftencoder := { self.ftencoder with state := ran.1 } },
        calls := [call],
        result :=
          match ran.2 with
          | Except.error what => Except.error (Error.KernelFailure what)
          | Except.ok written => Except.ok (output.withData written) }

/-- The method `FasterTransformerEncoder::get_pickle_info` (lines 100-104):
a copy of `weights` with `head_info` pushed at the back. -/
def FasterTransformerEncoder.get_pickle_info
    (self : torch_ths.FasterTransformerEncoder) : List Tensor :=
  let tmp := self.weights
  tmp ++ [self.head_info]

/-! ## Vocabulary for the statements -/

/-- The weight parameter called `x`. -/
def WeightArgs.get (w : WeightArgs) : WeightName → Tensor
  | WeightName.q_kernel => w.q_kernel
  | WeightName.q_bias => w.q_bias
  | WeightName.k_kernel => w.k_kernel
  | WeightName.k_bias => w.k_bias
  | WeightName.v_kernel => w.v_kernel
  | WeightName.v_bias => w.v_bias
  | WeightName.attr_output_kernel => w.attr_output_kernel
  | WeightName.attr_output_bias => w.attr_output_bias
  | WeightName.attr_output_layernorm_gamma => w.attr_output_layernorm_gamma
  | WeightName.attr_output_layernorm_beta => w.attr_output_layernorm_beta
  | WeightName.inter_kernel => w.inter_kernel
  | WeightName.inter_bias => w.inter_bias
  | WeightName.output_kernel => w.output_kernel
  | WeightName.output_bias => w.output_bias
  | WeightName.output_layernorm_gamma => w.output_layernorm_gamma
  | WeightName.output_layernorm_beta => w.output_layernorm_beta

/-- The sixteen weight names in the order of the constructor's checks. -/
def WeightName.all : List WeightName :=
  [WeightName.q_kernel, WeightName.q_bias, WeightName.k_kernel, WeightName.k_bias,
   WeightName.v_kernel, WeightName.v_bias, WeightName.attr_output_kernel,
   WeightName.attr_output_bias, WeightName.attr_output_layernorm_gamma,
   WeightName.attr_output_layernorm_beta, WeightName.inter_kernel,
   WeightName.inter_bias, WeightName.output_kernel, WeightName.output_bias,
   WeightName.output_layernorm_gamma, WeightName.output_layernorm_beta]

/-- The first requirement of `CHECK_INPUT(x, st)` that `x` violates, if any. -/
def firstFault (x : Tensor) (st : ScalarType) : Option Requirement :=
  if x.is_cuda = false then some Requirement.cuda
  else if x.is_contiguous = false then some Requirement.contiguous
  else if x.scalar_type ≠ st then some Requirement.type
  else none

/-- The checks `CHECK_INPUT(x, st)` for the weights named in `xs`, in order. -/
def checkWeights (w : WeightArgs) (st : ScalarType) : List WeightName → Except Error Unit
  | [] => Except.ok ()
  | x :: xs =>
    match firstFault (w.get x) st with
    | some p => Except.error (Error.InvalidWeight x p)
    | none => checkWeights w st xs

/-- The kernel specialisation the constructor's switch selects for a scalar
type, if any. -/
def precisionOf : ScalarType → Option Precision
  | ScalarType.Float => some Precision.float
  | ScalarType.Half => some Precision.half
  | _ => none

/-- The value the constructor returns once all checks passed and the switch
selected the specialisation `T`. -/
def builtModule (R : Runtime) (mem : Mem) (head_num head_size : Int)
    (remove_padding : Bool) (w : WeightArgs) (T : Precision) :
    torch_ths.FasterTransformerEncoder :=
  { _st := w.q_kernel.scalar_type, _remove_padding := remove_padding,
    weights := WeightName.all.map w.get,
    ftencoder :=
      { T := T, head_num := head_num, head_size := head_size,
        weights := WeightName.all.map w.get,
        state := R.create T head_num head_size (WeightName.all.map w.get) },
    head_info :=
      Tensor.defined
        { impl := mem.fresh, is_cuda := false, is_contiguous := true,
          scalar_type := ScalarType.Long, sizes := [3],
          data := [head_num, head_size, if remove_padding then 1 else 0] } }

/-- Modelled from the spec: the persistence layer's reconstruction step, which
is not part of the source at hand. Per §6 it re-invokes construction with the
first sixteen tensors of a saved state and with head_count, head_size and
remove_padding decoded from the seventeenth (remove_padding is on when the
third element is non-zero). A state that is not seventeen tensors long is
not a saved state. -/
def restore (R : Runtime) (mem : Mem) : List Tensor → Option Constructed
  | [t0, t1, t2, t3, t4, t5, t6, t7, t8, t9, t10, t11, t12, t13, t14, t15, info] =>
    some
      (FasterTransformerEncoder.FasterTransformerEncoder R mem
        (info.data.getD 0 0) (info.data.getD 1 0) (decide (info.data.getD 2 0 ≠ 0))
        { q_kernel := t0,
          q_bias := t1,
          k_kernel := t2,
          k_bias := t3,
          v_kernel := t4,
          v_bias := t5,
          attr_output_kernel := t6,
          attr_output_bias := t7,
          attr_output_layernorm_gamma := t8,
          attr_output_layernorm_beta := t9,
          inter_kernel := t10,
          inter_bias := t11,
          output_kernel := t12,
          output_bias := t13,
          output_layernorm_gamma := t14,
          output_layernorm_beta := t15 })
  | _ => none

/-- The first check on `sequence_lengths` (made when padding removal is on)
that fails, if any. -/
def seqFault (batch_size : Int) (sequence_lengths : Tensor) : Option Requirement :=
  if sequence_lengths.is_cuda = false then some Requirement.cuda
  else if sequence_lengths.is_contiguous = false then some Requirement.contiguous
  else if sequence_lengths.scalar_type ≠ ScalarType.Int then some Requirement.int32
  else if sequence_lengths.numel = 0 then some Requirement.nonempty
  else
    match sequence_lengths.size0 with
    | none => some Requirement.dim0
    | some n => if n = batch_size then none else some Requirement.shape

/-- The exception `forward` throws before it reaches the kernel, if any. -/
def forwardFault (R : Runtime) (self : FasterTransformerEncoder)
    (input attr_mask sequence_lengths : Tensor) : Option Error :=
  match input.sizes with
  | none => some (Error.InvalidInput CallArg.input Requirement.sizes)
  | some input_size =>
    match firstFault input self._st with
    | some p => some (Error.InvalidInput CallArg.input p)
    | none =>
      match firstFault attr_mask self._st with
      | some p => some (Error.InvalidInput CallArg.attr_mask p)
      | none =>
        if self._remove_padding then
          (seqFault (toInt32 (arrayRefGet R.stray input_size 0)) sequence_lengths).map
            (Error.InvalidInput CallArg.sequence_lengths)
        else none

/-- The argument list `forward` hands to the kernel once its checks passed. -/
def kernelCall (R : Runtime) (mem : Mem) (self : FasterTransformerEncoder)
    (input attr_mask sequence_lengths : Tensor) : KernelCall :=
  { batch_size := toInt32 (arrayRefGet R.stray (input.sizes.getD []) 0),
    seq_len := toInt32 (arrayRefGet R.stray (input.sizes.getD []) 1),
    input := input, attr_mask := attr_mask, output := empty_like mem input,
    sequence_lengths := sequence_lengths, remove_padding := self._remove_padding }

/-- What `forward` returns after running the kernel on the call `c`. -/
def kernelOutcome (R : Runtime) (self : FasterTransformerEncoder) (c : KernelCall) :
    Except Error Tensor :=
  match (R.execute self.ftencoder c).2 with
  | Except.error what => Except.error (Error.KernelFailure what)
  | Except.ok written => Except.ok (c.output.withData written)

/-- The module after the kernel ran on the call `c`: only the kernel handle's
internal state has moved. -/
def afterKernel (R : Runtime) (self : FasterTransformerEncoder) (c : KernelCall) :
    FasterTransformerEncoder :=
  { self with ftencoder := { self.ftencoder with state := (R.execute self.ftencoder c).1 } }

/-! ## A module's lifetime -/

/-- One use of a constructed module by its owner. -/
inductive Op where
  | forward (mem : Mem) (input attr_mask sequence_lengths : Tensor)
  | get_pickle_info

/-- What the owner sees of one use. -/
inductive Obs where
  | forwarded (result : Except Error Tensor) (calls : List KernelCall)
  | pickled (state : List Tensor)

/-- One use: `forward` hands on the module it leaves behind, the const method
`get_pickle_info` hands on the module as it is. -/
def step (R : Runtime) (m : FasterTransformerEncoder) : Op → FasterTransformerEncoder × Obs
  | Op.forward mem input attr_mask sequence_lengths =>
    ((m.forward R mem input attr_mask sequence_lengths).self,
     Obs.forwarded (m.forward R mem input attr_mask sequence_lengths).result
       (m.forward R mem input attr_mask sequence_lengths).calls)
  | Op.get_pickle_info => (m, Obs.pickled m.get_pickle_info)

/-- A sequence of uses, one after the other. -/
def run (R : Runtime) : FasterTransformerEncoder → List Op → FasterTransformerEncoder × List Obs
  | m, [] => (m, [])
  | m, op :: ops =>
    ((run R (step R m op).1 ops).1, (step R m op).2 :: (run R (step R m op).1 ops).2)

/-- The same tensor object with its identity and buffer contents blanked:
what is left of a freshly allocated output once its uninitialised contents
and its address are disregarded. -/
def Tensor.eraseBuffer : Tensor → Tensor
  | Tensor.undefined => Tensor.undefined
  | Tensor.defined t => Tensor.defined { t with impl := 0, data := [] }

/-- A kernel call with the output buffer blanked. -/
def KernelCall.eraseOutput (c : KernelCall) : KernelCall :=
  { c with output := c.output.eraseBuffer }

/-- The kernel is a deterministic function of its arguments that fully
overwrites the output buffer: what it writes (or the failure it raises)
depends only on what the handle was constructed from and on the arguments of
the call, not on the handle's internal state nor on the identity or prior
contents of the output buffer. -/
def Runtime.deterministic (R : Runtime) : Prop :=
  ∀ (h k : FTEncoder) (c d : KernelCall),
    h.T = k.T → h.head_num = k.head_num → h.head_size = k.head_size →
    h.weights = k.weights → c.eraseOutput = d.eraseOutput →
    (R.execute h c).2 = (R.execute k d).2

/-- Two results of forward agree: the same exception, or bit-identical
tensors. -/
def sameResult : Except Error Tensor → Except Error Tensor → Prop
  | Except.ok a, Except.ok b => a.bitIdentical b
  | Except.error e, Except.error f => e = f
  | _, _ => False

/-! ## Concrete values -/


/-- A runtime to evaluate with: the kernel counts its runs in its state and
writes a copy of the input's payload. -/
def exampleRuntime : Runtime :=
  { create := fun _ _ _ _ => 0,
    execute := fun h c => (h.state + 1, Except.ok c.input.data),
    stray := fun _ => 0 }

/-- An allocation to evaluate with: object 100, the buffer holds 7, 8, 9, ... -/
def exampleMem : Mem := { fresh := 100, uninit := fun i => 7 + (i : Int) }

/-- A contiguous on-device tensor of zeros. -/
def cudaTensor (impl : Nat) (st : ScalarType) (sizes : List Int) : Tensor :=
  Tensor.defined
    { impl := impl, is_cuda := true, is_contiguous := true, scalar_type := st,
      sizes := sizes, data := List.replicate sizes.prod.toNat 0 }

/-- A weight set of the documented shapes for head_num = 2, head_size = 1
(hidden_dim = 2), all of scalar type `st`. -/
def exampleWeights (st : ScalarType) : WeightArgs :=
  { q_kernel := cudaTensor 1 st [2, 2], q_bias := cudaTensor 2 st [2],
    k_kernel := cudaTensor 3 st [2, 2], k_bias := cudaTensor 4 st [2],
    v_kernel := cudaTensor 5 st [2, 2], v_bias := cudaTensor 6 st [2],
    attr_output_kernel := cudaTensor 7 st [2, 2], attr_output_bias := cudaTensor 8 st [2],
    attr_output_layernorm_gamma := cudaTensor 9 st [2],
    attr_output_layernorm_beta := cudaTensor 10 st [2],
    inter_kernel := cudaTensor 11 st [8, 2], inter_bias := cudaTensor 12 st [8],
    output_kernel := cudaTensor 13 st [2, 8], output_bias := cudaTensor 14 st [2],
    output_layernorm_gamma := cudaTensor 15 st [2],
    output_layernorm_beta := cudaTensor 16 st [2] }

/-- A float weight set in which `output_bias` is a half tensor (the only
tensor of a mismatched scalar type) and the float tensor `q_bias` is not on
the compute device. -/
def strayBiasWeights : WeightArgs :=
  { exampleWeights ScalarType.Float with
    q_bias :=
      Tensor.defined
        { impl := 2, is_cuda := false, is_contiguous := true,
          scalar_type := ScalarType.Float, sizes := [2], data := [0, 0] },
    output_bias := cudaTensor 14 ScalarType.Half [2] }

/-- A float weight set in which only `inter_bias` is a half tensor. -/
def oneMismatched : WeightArgs :=
  { exampleWeights ScalarType.Float with inter_bias := cudaTensor 12 ScalarType.Half [8] }

/-- The module the constructor returns for the float example weight set with
head_num = 2, head_size = 1 and remove_padding on. -/
def exampleModule : FasterTransformerEncoder :=
  builtModule exampleRuntime exampleMem 2 1 true (exampleWeights ScalarType.Float)
    Precision.float

/-- A second allocation: object 200, the buffer holds -1 everywhere. -/
def otherMem : Mem := { fresh := 200, uninit := fun _ => -1 }

/-- The module the constructor returns for the float example weight set with
head_num = 2, head_size = 1 and remove_padding off. -/
def plainModule : FasterTransformerEncoder :=
  builtModule exampleRuntime exampleMem 2 1 false (exampleWeights ScalarType.Float)
    Precision.float

/-- An input of batch 2, seq_len 4, hidden_dim 2. -/
def exampleInput : Tensor := cudaTensor 20 ScalarType.Float [2, 4, 2]

/-- An attention mask of batch 2, seq_len 4. -/
def exampleMask : Tensor := cudaTensor 21 ScalarType.Float [2, 4, 4]

/-- An input whose batch extent, 2^32 + 2, does not fit a 32-bit int. -/
def hugeInput : Tensor := cudaTensor 50 ScalarType.Float [4294967298, 1, 1]

/-- The attention mask that goes with `hugeInput`. -/
def hugeMask : Tensor := cudaTensor 51 ScalarType.Float [4294967298, 1, 1]

/-- An int32 tensor of two sequence lengths. -/
def twoLengths : Tensor := cudaTensor 52 ScalarType.Int [2]

/-- An input whose batch extent is 2^31. -/
def bigInput : Tensor := cudaTensor 60 ScalarType.Float [2147483648, 1, 1]

/-- The attention mask that goes with `bigInput`. -/
def bigMask : Tensor := cudaTensor 61 ScalarType.Float [2147483648, 1, 1]

/-- An int32 tensor of 2^31 sequence lengths, one per batch element of
`bigInput`. -/
def fullLengths : Tensor := cudaTensor 62 ScalarType.Int [2147483648]

/-- An int32 tensor of sizes 2 x 3: six entries, first dimension 2. -/
def twoByThreeLengths : Tensor := cudaTensor 53 ScalarType.Int [2, 3]

/-- A double weight set whose `k_kernel` is not contiguous: a tensor fails a
check and the scalar type has no kernel specialisation. -/
def doubleStridedWeights : WeightArgs :=
  { exampleWeights ScalarType.Double with
    k_kernel :=
      Tensor.defined
        { impl := 3, is_cuda := true, is_contiguous := false,
          scalar_type := ScalarType.Double, sizes := [2, 2], data := [0, 0, 0, 0] } }

/-- A float weight set of shapes that fit no hidden dimension: q_kernel is
3 x 7, k_kernel has a single entry, the feed-forward kernel is 2 x 2. -/
def misshapenWeights : WeightArgs :=
  { exampleWeights ScalarType.Float with
    q_kernel := cudaTensor 1 ScalarType.Float [3, 7],
    k_kernel := cudaTensor 3 ScalarType.Float [1],
    inter_kernel := cudaTensor 11 ScalarType.Float [2, 2],
    output_bias := cudaTensor 14 ScalarType.Float [] }

/-! ## Lemmas on the checks -/

theorem CHECK_INPUT_eq (mk : Requirement → Error) (x : Tensor) (st : ScalarType) :
    CHECK_INPUT mk x st =
      match firstFault x st with
      | some p => Except.error (mk p)
      | none => Except.ok () := by
  unfold CHECK_INPUT CHECK_CUDA CHECK_CONTIGUOUS firstFault
  cases h1 : x.is_cuda <;> cases h2 : x.is_contiguous <;>
    by_cases h3 : x.scalar_type = st <;>
    simp [h3, bind, Except.bind, pure, Except.pure, throw, throwThe, MonadExceptOf.throw]

theorem firstFault_none_iff (x : Tensor) (st : ScalarType) :
    firstFault x st = none ↔
      x.is_cuda = true ∧ x.is_contiguous = true ∧ x.scalar_type = st := by
  unfold firstFault
  cases h1 : x.is_cuda <;> cases h2 : x.is_contiguous <;>
    by_cases h3 : x.scalar_type = st <;> simp [h3]

theorem ctor_unfold (R : Runtime) (mem : Mem) (head_num head_size : Int)
    (remove_padding : Bool) (w : WeightArgs) :
    FasterTransformerEncoder.FasterTransformerEncoder R mem head_num head_size
        remove_padding w =
      match checkWeights w w.q_kernel.scalar_type WeightName.all with
      | Except.error e => { result := Except.error e, handles := [] }
      | Except.ok _ =>
        match precisionOf w.q_kernel.scalar_type with
        | none => { result := Except.error Error.UnsupportedPrecision, handles := [] }
        | some T =>
          { result := Except.ok (builtModule R mem head_num head_size remove_padding w T),
            handles :=
              [(builtModule R mem head_num head_size remove_padding w T).ftencoder] } := by
  unfold FasterTransformerEncoder.FasterTransformerEncoder
  simp only [CHECK_INPUT_eq, checkWeights, WeightName.all, WeightArgs.get]
  cases firstFault w.q_kernel w.q_kernel.scalar_type with
  | some p => rfl
  | none =>
  cases firstFault w.q_bias w.q_kernel.scalar_type with
  | some p => rfl
  | none =>
  cases firstFault w.k_kernel w.q_kernel.scalar_type with
  | some p => rfl
  | none =>
  cases firstFault w.k_bias w.q_kernel.scalar_type with
  | some p => rfl
  | none =>
  cases firstFault w.v_kernel w.q_kernel.scalar_type with
  | some p => rfl
  | none =>
  cases firstFault w.v_bias w.q_kernel.scalar_type with
  | some p => rfl
  | none =>
  cases firstFault w.attr_output_kernel w.q_kernel.scalar_type with
  | some p => rfl
  | none =>
  cases firstFault w.attr_output_bias w.q_kernel.scalar_type with
  | some p => rfl
  | none =>
  cases firstFault w.attr_output_layernorm_gamma w.q_kernel.scalar_type with
  | some p => rfl
  | none =>
  cases firstFault w.attr_output_layernorm_beta w.q_kernel.scalar_type with
  | some p => rfl
  | none =>
  cases firstFault w.inter_kernel w.q_kernel.scalar_type with
  | some p => rfl
  | none =>
  cases firstFault w.inter_bias w.q_kernel.scalar_type with
  | some p => rfl
  | none =>
  cases firstFault w.output_kernel w.q_kernel.scalar_type with
  | some p => rfl
  | none =>
  cases firstFault w.output_bias w.q_kernel.scalar_type with
  | some p => rfl
  | none =>
  cases firstFault w.output_layernorm_gamma w.q_kernel.scalar_type with
  | some p => rfl
  | none =>
  cases firstFault w.output_layernorm_beta w.q_kernel.scalar_type with
  | some p => rfl
  | none =>
  cases h : w.q_kernel.scalar_type <;>
    simp [h, bind, Except.bind, precisionOf, builtModule, empty_int64, TensorImpl.setItem,
      WeightName.all, WeightArgs.get, List.range, List.range.loop]

theorem checkWeights_ok_iff (w : WeightArgs) (st : ScalarType) (xs : List WeightName) :
    checkWeights w st xs = Except.ok () ↔ ∀ x ∈ xs, firstFault (w.get x) st = none := by
  induction xs with
  | nil => simp [checkWeights]
  | cons x xs ih =>
    cases h : firstFault (w.get x) st with
    | none => simp [checkWeights, h, ih]
    | some p => simp [checkWeights, h]

theorem checkWeights_error_elim (w : WeightArgs) (st : ScalarType) (xs : List WeightName)
    (e : Error) (h : checkWeights w st xs = Except.error e) :
    ∃ pre y post p, xs = pre ++ y :: post ∧
      (∀ z ∈ pre, firstFault (w.get z) st = none) ∧
      firstFault (w.get y) st = some p ∧ e = Error.InvalidWeight y p := by
  induction xs with
  | nil => simp [checkWeights] at h
  | cons x xs ih =>
    cases hx : firstFault (w.get x) st with
    | none =>
      simp only [checkWeights, hx] at h
      obtain ⟨pre, y, post, p, hsplit, hpre, hy, he⟩ := ih h
      refine ⟨x :: pre, y, post, p, by simp [hsplit], ?_, hy, he⟩
      intro z hz
      rcases List.mem_cons.mp hz with rfl | hz
      · exact hx
      · exact hpre z hz
    | some p =>
      simp only [checkWeights, hx, Except.error.injEq] at h
      exact ⟨[], x, xs, p, rfl, by simp, hx, h.symm⟩

theorem checkWeights_cases (w : WeightArgs) (st : ScalarType) (xs : List WeightName) :
    checkWeights w st xs = Except.ok () ∨ ∃ e, checkWeights w st xs = Except.error e := by
  cases h : checkWeights w st xs with
  | ok u => exact Or.inl rfl
  | error e => exact Or.inr ⟨e, rfl⟩

theorem mem_all (x : WeightName) : x ∈ WeightName.all := by
  cases x <;> simp [WeightName.all]

theorem checkWeights_all_ok (w : WeightArgs) (st : ScalarType)
    (hw : ∀ x : WeightName, (w.get x).is_cuda = true ∧ (w.get x).is_contiguous = true ∧
      (w.get x).scalar_type = st) :
    checkWeights w st WeightName.all = Except.ok () :=
  (checkWeights_ok_iff w st _).mpr fun x _ => (firstFault_none_iff _ _).mpr (hw x)

theorem ctor_of_fault (R : Runtime) (mem : Mem) (head_num head_size : Int)
    (remove_padding : Bool) (w : WeightArgs) (e : Error)
    (h : checkWeights w w.q_kernel.scalar_type WeightName.all = Except.error e) :
    FasterTransformerEncoder.FasterTransformerEncoder R mem head_num head_size
        remove_padding w = { result := Except.error e, handles := [] } := by
  rw [ctor_unfold, h]

theorem ctor_of_unsupported (R : Runtime) (mem : Mem) (head_num head_size : Int)
    (remove_padding : Bool) (w : WeightArgs)
    (h : checkWeights w w.q_kernel.scalar_type WeightName.all = Except.ok ())
    (hp : precisionOf w.q_kernel.scalar_type = none) :
    FasterTransformerEncoder.FasterTransformerEncoder R mem head_num head_size
        remove_padding w =
      { result := Except.error Error.UnsupportedPrecision, handles := [] } := by
  rw [ctor_unfold, h, hp]

theorem ctor_of_supported (R : Runtime) (mem : Mem) (head_num head_size : Int)
    (remove_padding : Bool) (w : WeightArgs) (T : Precision)
    (h : checkWeights w w.q_kernel.scalar_type WeightName.all = Except.ok ())
    (hp : precisionOf w.q_kernel.scalar_type = some T) :
    FasterTransformerEncoder.FasterTransformerEncoder R mem head_num head_size
        remove_padding w =
      { result := Except.ok (builtModule R mem head_num head_size remove_padding w T),
        handles := [(builtModule R mem head_num head_size remove_padding w T).ftencoder] } := by
  rw [ctor_unfold, h, hp]

theorem precisionOf_eq_none_iff (st : ScalarType) :
    precisionOf st = none ↔ st ≠ ScalarType.Float ∧ st ≠ ScalarType.Half := by
  cases st <;> simp [precisionOf]

theorem precisionOf_supported (st : ScalarType)
    (h : st = ScalarType.Float ∨ st = ScalarType.Half) : ∃ T, precisionOf st = some T := by
  rcases h with rfl | rfl
  · exact ⟨Precision.float, rfl⟩
  · exact ⟨Precision.half, rfl⟩

/-! ## Construction and state export -/

/-- C1: for every weight set of sixteen on-device, contiguous tensors of one
supported scalar type (Float or Half) and every head_num, head_size and
remove_padding, the constructor returns a module, and `get_pickle_info` of that
module is exactly seventeen tensors: the sixteen arguments themselves in
declaration order (q_kernel, q_bias, k_kernel, k_bias, v_kernel, v_bias,
attr_output_kernel, attr_output_bias, attr_output_layernorm_gamma,
attr_output_layernorm_beta, inter_kernel, inter_bias, output_kernel,
output_bias, output_layernorm_gamma, output_layernorm_beta) followed by a
3-element int64 tensor holding (head_num, head_size, 1 if remove_padding
else 0). -/
theorem construct_then_get_pickle_info (R : Runtime) (mem : Mem)
    (head_num head_size : Int) (remove_padding : Bool) (w : WeightArgs) (st : ScalarType)
    (hst : st = ScalarType.Float ∨ st = ScalarType.Half)
    (hw : ∀ x : WeightName, (w.get x).is_cuda = true ∧ (w.get x).is_contiguous = true ∧
      (w.get x).scalar_type = st) :
    ∃ m, (FasterTransformerEncoder.FasterTransformerEncoder R mem head_num head_size
          remove_padding w).result = Except.ok m ∧
      m.get_pickle_info.length = 17 ∧
      m.get_pickle_info =
        [w.q_kernel, w.q_bias, w.k_kernel, w.k_bias, w.v_kernel, w.v_bias,
         w.attr_output_kernel, w.attr_output_bias, w.attr_output_layernorm_gamma,
         w.attr_output_layernorm_beta, w.inter_kernel, w.inter_bias, w.output_kernel,
         w.output_bias, w.output_layernorm_gamma, w.output_layernorm_beta,
         Tensor.defined
           { impl := mem.fresh, is_cuda := false, is_contiguous := true,
             scalar_type := ScalarType.Long, sizes := [3],
             data := [head_num, head_size, if remove_padding then 1 else 0] }] := by
  have hq : w.q_kernel.scalar_type = st := (hw WeightName.q_kernel).2.2
  have hchk := checkWeights_all_ok w st hw
  rw [← hq] at hchk hst
  obtain ⟨T, hT⟩ := precisionOf_supported _ hst
  refine ⟨builtModule R mem head_num head_size remove_padding w T, ?_, rfl, rfl⟩
  rw [ctor_of_supported R mem head_num head_size remove_padding w T hchk hT]

/-- Witness for C1: the float weight set of hidden_dim 2, head_num = 2,
head_size = 1, remove_padding on. -/
theorem construct_then_get_pickle_info_witness :
    ∃ m, (FasterTransformerEncoder.FasterTransformerEncoder exampleRuntime exampleMem 2 1
          true (exampleWeights ScalarType.Float)).result = Except.ok m ∧
      m.get_pickle_info.length = 17 ∧
      m.get_pickle_info =
        [cudaTensor 1 ScalarType.Float [2, 2], cudaTensor 2 ScalarType.Float [2],
         cudaTensor 3 ScalarType.Float [2, 2], cudaTensor 4 ScalarType.Float [2],
         cudaTensor 5 ScalarType.Float [2, 2], cudaTensor 6 ScalarType.Float [2],
         cudaTensor 7 ScalarType.Float [2, 2], cudaTensor 8 ScalarType.Float [2],
         cudaTensor 9 ScalarType.Float [2], cudaTensor 10 ScalarType.Float [2],
         cudaTensor 11 ScalarType.Float [8, 2], cudaTensor 12 ScalarType.Float [8],
         cudaTensor 13 ScalarType.Float [2, 8], cudaTensor 14 ScalarType.Float [2],
         cudaTensor 15 ScalarType.Float [2], cudaTensor 16 ScalarType.Float [2],
         Tensor.defined
           { impl := 100, is_cuda := false, is_contiguous := true,
             scalar_type := ScalarType.Long, sizes := [3], data := [2, 1, 1] }] :=
  construct_then_get_pickle_info exampleRuntime exampleMem 2 1 true
    (exampleWeights ScalarType.Float) ScalarType.Float (Or.inl rfl)
    (by intro x; cases x <;> decide)

theorem ctor_ok_elim (R : Runtime) (mem : Mem) (head_num head_size : Int)
    (remove_padding : Bool) (w : WeightArgs) (m : FasterTransformerEncoder)
    (h : (FasterTransformerEncoder.FasterTransformerEncoder R mem head_num head_size
        remove_padding w).result = Except.ok m) :
    ∃ T, checkWeights w w.q_kernel.scalar_type WeightName.all = Except.ok () ∧
      precisionOf w.q_kernel.scalar_type = some T ∧
      m = builtModule R mem head_num head_size remove_padding w T := by
  rw [ctor_unfold] at h
  rcases checkWeights_cases w w.q_kernel.scalar_type WeightName.all with hc | ⟨e, hc⟩
  · rw [hc] at h
    cases hp : precisionOf w.q_kernel.scalar_type with
    | none => rw [hp] at h; simp at h
    | some T =>
      rw [hp] at h
      simp only [Except.ok.injEq] at h
      exact ⟨T, hc, rfl, h.symm⟩
  · rw [hc] at h
    simp at h

theorem restore_builtModule (R R' : Runtime) (mem mem' : Mem) (head_num head_size : Int)
    (remove_padding : Bool) (w : WeightArgs) (T : Precision) :
    restore R' mem' (builtModule R mem head_num head_size remove_padding w T).get_pickle_info =
      some (FasterTransformerEncoder.FasterTransformerEncoder R' mem' head_num head_size
        remove_padding w) := by
  cases remove_padding <;> rfl

/-- C2: round trip through the exported state. For every module `m` the
constructor returned, re-invoking construction (with any runtime and any
allocation) on the first sixteen tensors of `m.get_pickle_info` and on
head_num, head_size and remove_padding decoded from the seventeenth succeeds,
and the module `n` it yields exports the same sixteen tensors in the same
order followed by a metadata tensor bit-identical to that of `m`, and has the
scalar type and the padding-removal flag of `m`. -/
theorem restore_get_pickle_info_roundtrip (R R' : Runtime) (mem mem' : Mem)
    (head_num head_size : Int) (remove_padding : Bool) (w : WeightArgs)
    (m : FasterTransformerEncoder)
    (h : (FasterTransformerEncoder.FasterTransformerEncoder R mem head_num head_size
        remove_padding w).result = Except.ok m) :
    ∃ c n, restore R' mem' m.get_pickle_info = some c ∧ c.result = Except.ok n ∧
      n.get_pickle_info.length = 17 ∧
      n.get_pickle_info.take 16 = m.get_pickle_info.take 16 ∧
      n.get_pickle_info.drop 16 = [n.head_info] ∧
      m.get_pickle_info.drop 16 = [m.head_info] ∧
      n.head_info.bitIdentical m.head_info ∧
      n._st = m._st ∧ n._remove_padding = m._remove_padding := by
  obtain ⟨T, hc, hp, rfl⟩ := ctor_ok_elim R mem head_num head_size remove_padding w m h
  refine ⟨_, builtModule R' mem' head_num head_size remove_padding w T,
    restore_builtModule R R' mem mem' head_num head_size remove_padding w T, ?_,
    rfl, rfl, rfl, rfl, ⟨rfl, rfl, rfl⟩, rfl, rfl⟩
  rw [ctor_of_supported R' mem' head_num head_size remove_padding w T hc hp]

/-- Witness for C2: the module built from the float example weight set is
restored from its exported state under another allocation. -/
theorem restore_get_pickle_info_roundtrip_witness :
    (FasterTransformerEncoder.FasterTransformerEncoder exampleRuntime exampleMem 2 1 true
        (exampleWeights ScalarType.Float)).result = Except.ok exampleModule ∧
    ∃ c n, restore exampleRuntime otherMem exampleModule.get_pickle_info = some c ∧
      c.result = Except.ok n ∧
      n.get_pickle_info.length = 17 ∧
      n.get_pickle_info.take 16 = exampleModule.get_pickle_info.take 16 ∧
      n.get_pickle_info.drop 16 = [n.head_info] ∧
      exampleModule.get_pickle_info.drop 16 = [exampleModule.head_info] ∧
      n.head_info.bitIdentical exampleModule.head_info ∧
      n._st = exampleModule._st ∧ n._remove_padding = exampleModule._remove_padding :=
  have h : (FasterTransformerEncoder.FasterTransformerEncoder exampleRuntime exampleMem 2 1
      true (exampleWeights ScalarType.Float)).result = Except.ok exampleModule := by
    rw [ctor_of_supported exampleRuntime exampleMem 2 1 true (exampleWeights ScalarType.Float)
      Precision.float rfl rfl]
    rfl
  ⟨h, restore_get_pickle_info_roundtrip exampleRuntime exampleRuntime exampleMem otherMem
    2 1 true (exampleWeights ScalarType.Float) exampleModule h⟩

theorem firstFault_type_of_resident (t : Tensor) (st : ScalarType) (p : Requirement)
    (h1 : t.is_cuda = true) (h2 : t.is_contiguous = true) (h : firstFault t st = some p) :
    p = Requirement.type ∧ t.scalar_type ≠ st := by
  unfold firstFault at h
  by_cases h3 : t.scalar_type = st <;> simp [h1, h2, h3] at h
  exact ⟨h.symm, h3⟩

/-- C3, as stated, fails: in the float weight set `strayBiasWeights` the only
tensor of a mismatched scalar type is `output_bias`, yet the constructor's
error names `q_bias`, which has the right type but is off-device and is
checked earlier. So it is not true that the error names the mismatched
tensor of every weight set that contains one. -/
theorem mismatched_tensor_not_always_named :
    ¬ ∀ (R : Runtime) (mem : Mem) (head_num head_size : Int) (remove_padding : Bool)
        (w : WeightArgs) (x : WeightName),
        (w.get x).scalar_type ≠ w.q_kernel.scalar_type →
        ∃ p, (FasterTransformerEncoder.FasterTransformerEncoder R mem head_num head_size
          remove_padding w).result = Except.error (Error.InvalidWeight x p) := by
  intro h
  obtain ⟨p, hp⟩ := h exampleRuntime exampleMem 2 1 false strayBiasWeights
    WeightName.output_bias (by decide)
  rw [ctor_of_fault exampleRuntime exampleMem 2 1 false strayBiasWeights
    (Error.InvalidWeight WeightName.q_bias Requirement.cuda) rfl] at hp
  simp at hp

/-- C3, amended: for every weight set that contains a tensor `x` whose scalar
type differs from q_kernel's, construction fails with an `InvalidWeight` error
that names the first tensor, in the order of the constructor's parameters,
that fails a check, together with the first property (device, contiguity,
type) that tensor fails; no kernel handle is allocated. When all sixteen
tensors are on-device and contiguous and `x` is the only tensor of a
mismatched type, the error names exactly `x` and the type property. -/
theorem mismatched_type_fails_naming_first_fault (R : Runtime) (mem : Mem)
    (head_num head_size : Int) (remove_padding : Bool) (w : WeightArgs) (x : WeightName)
    (hx : (w.get x).scalar_type ≠ w.q_kernel.scalar_type) :
    (∃ pre y post p, WeightName.all = pre ++ y :: post ∧
      (∀ z ∈ pre, (w.get z).is_cuda = true ∧ (w.get z).is_contiguous = true ∧
        (w.get z).scalar_type = w.q_kernel.scalar_type) ∧
      firstFault (w.get y) w.q_kernel.scalar_type = some p ∧
      FasterTransformerEncoder.FasterTransformerEncoder R mem head_num head_size
        remove_padding w =
          { result := Except.error (Error.InvalidWeight y p), handles := [] }) ∧
    ((∀ z, (w.get z).is_cuda = true ∧ (w.get z).is_contiguous = true) →
      (∀ z, z ≠ x → (w.get z).scalar_type = w.q_kernel.scalar_type) →
      FasterTransformerEncoder.FasterTransformerEncoder R mem head_num head_size
        remove_padding w =
          { result := Except.error (Error.InvalidWeight x Requirement.type),
            handles := [] }) := by
  have key : ∃ pre y post p, WeightName.all = pre ++ y :: post ∧
      (∀ z ∈ pre, firstFault (w.get z) w.q_kernel.scalar_type = none) ∧
      firstFault (w.get y) w.q_kernel.scalar_type = some p ∧
      checkWeights w w.q_kernel.scalar_type WeightName.all =
        Except.error (Error.InvalidWeight y p) := by
    rcases checkWeights_cases w w.q_kernel.scalar_type WeightName.all with hc | ⟨e, hc⟩
    · have hnone := (checkWeights_ok_iff _ _ _).mp hc x (mem_all x)
      exact absurd ((firstFault_none_iff _ _).mp hnone).2.2 hx
    · obtain ⟨pre, y, post, p, hs, hpre, hy, rfl⟩ := checkWeights_error_elim _ _ _ _ hc
      exact ⟨pre, y, post, p, hs, hpre, hy, hc⟩
  obtain ⟨pre, y, post, p, hs, hpre, hy, hc⟩ := key
  have hctor := ctor_of_fault R mem head_num head_size remove_padding w _ hc
  refine ⟨⟨pre, y, post, p, hs, fun z hz => (firstFault_none_iff _ _).mp (hpre z hz), hy,
    hctor⟩, ?_⟩
  intro hres honly
  obtain ⟨hp, hne⟩ := firstFault_type_of_resident _ _ _ (hres y).1 (hres y).2 hy
  have hyx : y = x := by
    by_contra hyx
    exact hne (honly y hyx)
  rw [hctor, hp, hyx]

/-- Witness for C3, amended: the float weight set whose `inter_bias` alone is
a half tensor. -/
theorem mismatched_type_fails_naming_first_fault_witness :
    (oneMismatched.get WeightName.inter_bias).scalar_type ≠
        oneMismatched.q_kernel.scalar_type ∧
    FasterTransformerEncoder.FasterTransformerEncoder exampleRuntime exampleMem 2 1 false
        oneMismatched =
      { result := Except.error (Error.InvalidWeight WeightName.inter_bias Requirement.type),
        handles := [] } :=
  ⟨by decide,
   (mismatched_type_fails_naming_first_fault exampleRuntime exampleMem 2 1 false
      oneMismatched WeightName.inter_bias (by decide)).2
      (by intro z; cases z <;> decide) (by intro z hz; cases z <;> first | decide | exact absurd rfl hz)⟩

/-- C4: for every weight set whose sixteen tensors are on-device, contiguous
and all of one scalar type `st`, if `st` is neither Float nor Half then
construction fails with `UnsupportedPrecision`, yielding no module and
allocating no kernel handle; and the scalar type is the only reason: the
same construction fails with `UnsupportedPrecision` only if `st` is neither
Float nor Half. -/
theorem unsupported_precision_rejected (R : Runtime) (mem : Mem)
    (head_num head_size : Int) (remove_padding : Bool) (w : WeightArgs) (st : ScalarType)
    (hw : ∀ x : WeightName, (w.get x).is_cuda = true ∧ (w.get x).is_contiguous = true ∧
      (w.get x).scalar_type = st) :
    (st ≠ ScalarType.Float ∧ st ≠ ScalarType.Half →
      FasterTransformerEncoder.FasterTransformerEncoder R mem head_num head_size
        remove_padding w =
          { result := Except.error Error.UnsupportedPrecision, handles := [] }) ∧
    (∀ e, (FasterTransformerEncoder.FasterTransformerEncoder R mem head_num head_size
        remove_padding w).result = Except.error e →
      e = Error.UnsupportedPrecision ∧ st ≠ ScalarType.Float ∧ st ≠ ScalarType.Half) := by
  have hq : w.q_kernel.scalar_type = st := (hw WeightName.q_kernel).2.2
  have hchk := checkWeights_all_ok w st hw
  rw [← hq] at hchk
  constructor
  · intro hst
    rw [← hq] at hst
    exact ctor_of_unsupported R mem head_num head_size remove_padding w hchk
      ((precisionOf_eq_none_iff _).mpr hst)
  · intro e he
    cases hp : precisionOf w.q_kernel.scalar_type with
    | none =>
      rw [ctor_of_unsupported R mem head_num head_size remove_padding w hchk hp] at he
      simp only [Except.error.injEq] at he
      exact ⟨he.symm, hq ▸ (precisionOf_eq_none_iff _).mp hp⟩
    | some T =>
      rw [ctor_of_supported R mem head_num head_size remove_padding w T hchk hp] at he
      simp at he

/-- Witness for C4: the example weight set with every tensor of type Double. -/
theorem unsupported_precision_rejected_witness :
    FasterTransformerEncoder.FasterTransformerEncoder exampleRuntime exampleMem 2 1 false
        (exampleWeights ScalarType.Double) =
      { result := Except.error Error.UnsupportedPrecision, handles := [] } :=
  (unsupported_precision_rejected exampleRuntime exampleMem 2 1 false
    (exampleWeights ScalarType.Double) ScalarType.Double
    (by intro x; cases x <;> decide)).1 (by decide)

/-! ## Forward -/

theorem seq_checks_eq (b : Int) (sl : Tensor) :
    (do
      CHECK_CUDA (Error.InvalidInput CallArg.sequence_lengths) sl
      CHECK_CONTIGUOUS (Error.InvalidInput CallArg.sequence_lengths) sl
      TORCH_CHECK (sl.scalar_type = ScalarType.Int)
        (Error.InvalidInput CallArg.sequence_lengths Requirement.int32)
      TORCH_CHECK (sl.numel ≠ 0)
        (Error.InvalidInput CallArg.sequence_lengths Requirement.nonempty)
      match sl.size0 with
      | none =>
        throw (Error.InvalidInput CallArg.sequence_lengths Requirement.dim0)
      | some n =>
        TORCH_CHECK (n = b)
          (Error.InvalidInput CallArg.sequence_lengths Requirement.shape) :
      Except Error Unit) =
    match seqFault b sl with
    | some p => Except.error (Error.InvalidInput CallArg.sequence_lengths p)
    | none => Except.ok () := by
  unfold CHECK_CUDA CHECK_CONTIGUOUS TORCH_CHECK seqFault
  cases h1 : sl.is_cuda <;> cases h2 : sl.is_contiguous <;>
    by_cases h3 : sl.scalar_type = ScalarType.Int <;>
    by_cases h4 : sl.numel = 0 <;>
    cases h5 : sl.size0 <;>
    simp [h3, h4, bind, Except.bind, pure, Except.pure, throw, throwThe,
      MonadExceptOf.throw]
  rename_i n
  by_cases h6 : n = b <;> simp [h6]

theorem seqFault_none_iff (b : Int) (sl : Tensor) :
    seqFault b sl = none ↔
      sl.is_cuda = true ∧ sl.is_contiguous = true ∧ sl.scalar_type = ScalarType.Int ∧
      sl.numel ≠ 0 ∧ sl.size0 = some b := by
  unfold seqFault
  cases h1 : sl.is_cuda <;> cases h2 : sl.is_contiguous <;>
    by_cases h3 : sl.scalar_type = ScalarType.Int <;>
    by_cases h4 : sl.numel = 0 <;>
    cases h5 : sl.size0 <;>
    simp [h3, h4]

theorem forward_unfold (R : Runtime) (mem : Mem) (self : FasterTransformerEncoder)
    (input attr_mask sequence_lengths : Tensor) :
    self.forward R mem input attr_mask sequence_lengths =
      match forwardFault R self input attr_mask sequence_lengths with
      | some e => { self := self, result := Except.error e, calls := [] }
      | none =>
        { self := afterKernel R self (kernelCall R mem self input attr_mask sequence_lengths),
          result :=
            kernelOutcome R self (kernelCall R mem self input attr_mask sequence_lengths),
          calls := [kernelCall R mem self input attr_mask sequence_lengths] } := by
  unfold FasterTransformerEncoder.forward forwardFault
  cases hs : input.sizes with
  | none => rfl
  | some input_size =>
    simp only [CHECK_INPUT_eq, seq_checks_eq]
    cases h1 : firstFault input self._st with
    | some p => rfl
    | none =>
      cases h2 : firstFault attr_mask self._st with
      | some p => rfl
      | none =>
        cases h3 : self._remove_padding with
        | false =>
          simp [bind, Except.bind, pure, Except.pure, kernelCall, kernelOutcome,
            afterKernel, hs, h3]
        | true =>
          cases h4 : seqFault (toInt32 (arrayRefGet R.stray input_size 0)) sequence_lengths with
          | some p => simp [bind, Except.bind]
          | none =>
            simp [bind, Except.bind, kernelCall, kernelOutcome, afterKernel, hs, h3]

theorem forward_of_fault (R : Runtime) (mem : Mem) (self : FasterTransformerEncoder)
    (input attr_mask sequence_lengths : Tensor) (e : Error)
    (h : forwardFault R self input attr_mask sequence_lengths = some e) :
    self.forward R mem input attr_mask sequence_lengths =
      { self := self, result := Except.error e, calls := [] } := by
  rw [forward_unfold, h]

theorem forward_of_pass (R : Runtime) (mem : Mem) (self : FasterTransformerEncoder)
    (input attr_mask sequence_lengths : Tensor)
    (h : forwardFault R self input attr_mask sequence_lengths = none) :
    self.forward R mem input attr_mask sequence_lengths =
      { self := afterKernel R self (kernelCall R mem self input attr_mask sequence_lengths),
        result :=
          kernelOutcome R self (kernelCall R mem self input attr_mask sequence_lengths),
        calls := [kernelCall R mem self input attr_mask sequence_lengths] } := by
  rw [forward_unfold, h]

/-- C5 fails on the code: with padding removal on, an input whose batch extent
is 2^32 + 2 and a `sequence_lengths` of only two entries (so its first
dimension differs from `input.size(0)`) pass every check, because
`int batch_size = input_size[0]` wraps the extent to 2; the kernel is invoked
with batch_size = 2 and forward returns a tensor. -/
theorem forward_accepts_wrapped_batch_size :
    exampleModule._remove_padding = true ∧
    hugeInput.size0 = some 4294967298 ∧ twoLengths.size0 = some 2 ∧
    (exampleModule.forward exampleRuntime otherMem hugeInput hugeMask twoLengths).calls.map
        KernelCall.batch_size = [2] ∧
    ∃ out, (exampleModule.forward exampleRuntime otherMem hugeInput hugeMask
        twoLengths).result = Except.ok out := by
  have h : forwardFault exampleRuntime exampleModule hugeInput hugeMask twoLengths = none := by
    decide
  rw [forward_of_pass _ _ _ _ _ _ h]
  exact ⟨rfl, rfl, rfl, by decide, _, rfl⟩

/-- C7 fails on the code: with padding removal on, an input of batch extent
2^31 and a `sequence_lengths` holding exactly one int32 length per batch
element (2^31 of them) form a valid call, yet forward throws
"wrong sequence_length shape" without invoking the kernel, because
`int batch_size = input_size[0]` wraps 2^31 to -2^31. -/
theorem forward_rejects_valid_call_on_wrapped_batch_size :
    exampleModule._remove_padding = true ∧
    firstFault bigInput exampleModule._st = none ∧
    firstFault bigMask exampleModule._st = none ∧
    bigInput.sizes = some [2147483648, 1, 1] ∧
    fullLengths.is_cuda = true ∧ fullLengths.is_contiguous = true ∧
    fullLengths.scalar_type = ScalarType.Int ∧ fullLengths.numel ≠ 0 ∧
    fullLengths.size0 = bigInput.size0 ∧
    exampleModule.forward exampleRuntime otherMem bigInput bigMask fullLengths =
      { self := exampleModule,
        result :=
          Except.error (Error.InvalidInput CallArg.sequence_lengths Requirement.shape),
        calls := [] } := by
  have h : forwardFault exampleRuntime exampleModule bigInput bigMask fullLengths =
      some (Error.InvalidInput CallArg.sequence_lengths Requirement.shape) := by
    decide
  rw [forward_of_fault _ _ _ _ _ _ _ h]
  exact ⟨rfl, by decide, by decide, rfl, rfl, rfl, rfl, by decide, rfl, rfl⟩

theorem sizes_of_is_cuda (t : Tensor) (h : t.is_cuda = true) :
    ∃ input_size, t.sizes = some input_size := by
  cases t with
  | undefined => simp [Tensor.is_cuda] at h
  | defined i => exact ⟨i.sizes, rfl⟩

theorem firstFault_some_of_not_ok (t : Tensor) (st : ScalarType)
    (h : ¬ (t.is_cuda = true ∧ t.is_contiguous = true ∧ t.scalar_type = st)) :
    ∃ p, firstFault t st = some p := by
  cases hf : firstFault t st with
  | none => exact absurd ((firstFault_none_iff t st).mp hf) h
  | some p => exact ⟨p, rfl⟩

theorem forwardFault_of_padding_off (R : Runtime) (self : FasterTransformerEncoder)
    (input attr_mask sequence_lengths : Tensor)
    (hpad : self._remove_padding = false)
    (hin : input.is_cuda = true ∧ input.is_contiguous = true ∧
      input.scalar_type = self._st)
    (hmask : attr_mask.is_cuda = true ∧ attr_mask.is_contiguous = true ∧
      attr_mask.scalar_type = self._st) :
    forwardFault R self input attr_mask sequence_lengths = none := by
  obtain ⟨input_size, hs⟩ := sizes_of_is_cuda input hin.1
  simp [forwardFault, hs, (firstFault_none_iff _ _).mpr hin,
    (firstFault_none_iff _ _).mpr hmask, hpad]

/-- C6: for every module with padding removal off and every forward call whose
input and attr_mask are on-device, contiguous and of the module's scalar type,
whatever `sequence_lengths` is (undefined, empty, off-device, non-contiguous,
of any dtype or length), forward passes its checks, invokes the kernel once,
handing `sequence_lengths` through untouched, and returns what the kernel
produced: the freshly allocated output holding what the kernel wrote, or the
kernel's own failure. No property of `sequence_lengths` is consulted. -/
theorem forward_ignores_sequence_lengths (R : Runtime) (mem : Mem)
    (self : FasterTransformerEncoder) (input attr_mask : Tensor)
    (hpad : self._remove_padding = false)
    (hin : input.is_cuda = true ∧ input.is_contiguous = true ∧
      input.scalar_type = self._st)
    (hmask : attr_mask.is_cuda = true ∧ attr_mask.is_contiguous = true ∧
      attr_mask.scalar_type = self._st) :
    ∀ sequence_lengths : Tensor,
      (self.forward R mem input attr_mask sequence_lengths).calls =
          [kernelCall R mem self input attr_mask sequence_lengths] ∧
      (kernelCall R mem self input attr_mask sequence_lengths).sequence_lengths =
          sequence_lengths ∧
      (kernelCall R mem self input attr_mask sequence_lengths).remove_padding = false ∧
      (self.forward R mem input attr_mask sequence_lengths).result =
          kernelOutcome R self (kernelCall R mem self input attr_mask sequence_lengths) ∧
      ∀ x p, (self.forward R mem input attr_mask sequence_lengths).result ≠
          Except.error (Error.InvalidInput x p) := by
  intro sequence_lengths
  rw [forward_of_pass R mem self input attr_mask sequence_lengths
    (forwardFault_of_padding_off R self input attr_mask sequence_lengths hpad hin hmask)]
  refine ⟨rfl, rfl, hpad, rfl, ?_⟩
  intro x p
  show kernelOutcome R self _ ≠ _
  unfold kernelOutcome
  split <;> simp

/-- Witness for C6: the padding-off example module, the example input and
mask, and an undefined `sequence_lengths`. -/
theorem forward_ignores_sequence_lengths_witness :
    (plainModule.forward exampleRuntime otherMem exampleInput exampleMask
        Tensor.undefined).calls =
      [kernelCall exampleRuntime otherMem plainModule exampleInput exampleMask
        Tensor.undefined] ∧
    (plainModule.forward exampleRuntime otherMem exampleInput exampleMask
        Tensor.undefined).result =
      kernelOutcome exampleRuntime plainModule
        (kernelCall exampleRuntime otherMem plainModule exampleInput exampleMask
          Tensor.undefined) :=
  have h := forward_ignores_sequence_lengths exampleRuntime otherMem plainModule
    exampleInput exampleMask rfl (by decide) (by decide) Tensor.undefined
  ⟨h.1, h.2.2.2.1⟩

/-- C8: for every module and every forward call in which input or attr_mask is
off-device, non-contiguous or of a scalar type other than the module's,
forward throws an `InvalidInput` error and the kernel is not invoked (the
module is left as it was). The error names `input` whenever input is bad,
also when attr_mask is bad too; it names `attr_mask`, with the first property
attr_mask violates, when only attr_mask is bad. -/
theorem forward_rejects_bad_input_or_mask (R : Runtime) (mem : Mem)
    (self : FasterTransformerEncoder) (input attr_mask sequence_lengths : Tensor)
    (hbad : ¬ (input.is_cuda = true ∧ input.is_contiguous = true ∧
        input.scalar_type = self._st) ∨
      ¬ (attr_mask.is_cuda = true ∧ attr_mask.is_contiguous = true ∧
        attr_mask.scalar_type = self._st)) :
    ∃ x p, self.forward R mem input attr_mask sequence_lengths =
        { self := self, result := Except.error (Error.InvalidInput x p), calls := [] } ∧
      (¬ (input.is_cuda = true ∧ input.is_contiguous = true ∧
          input.scalar_type = self._st) → x = CallArg.input) ∧
      ((input.is_cuda = true ∧ input.is_contiguous = true ∧
          input.scalar_type = self._st) →
        x = CallArg.attr_mask ∧ firstFault attr_mask self._st = some p) := by
  by_cases hin : input.is_cuda = true ∧ input.is_contiguous = true ∧
      input.scalar_type = self._st
  · have hmask := hbad.resolve_left (not_not_intro hin)
    obtain ⟨p, hp⟩ := firstFault_some_of_not_ok _ _ hmask
    obtain ⟨input_size, hs⟩ := sizes_of_is_cuda input hin.1
    refine ⟨CallArg.attr_mask, p, ?_, fun h => absurd hin h, fun _ => ⟨rfl, hp⟩⟩
    apply forward_of_fault
    simp [forwardFault, hs, (firstFault_none_iff _ _).mpr hin, hp]
  · cases hs : input.sizes with
    | none =>
      refine ⟨CallArg.input, Requirement.sizes, ?_, fun _ => rfl, fun h => absurd h hin⟩
      apply forward_of_fault
      simp [forwardFault, hs]
    | some input_size =>
      obtain ⟨p, hp⟩ := firstFault_some_of_not_ok _ _ hin
      refine ⟨CallArg.input, p, ?_, fun _ => rfl, fun h => absurd h hin⟩
      apply forward_of_fault
      simp [forwardFault, hs, hp]

/-- Witness for C8: the example module called with an input and a mask that
are both half tensors: the error names input and the type property. -/
theorem forward_rejects_bad_input_or_mask_witness :
    ∃ x p, exampleModule.forward exampleRuntime otherMem
        (cudaTensor 20 ScalarType.Half [2, 4, 2]) (cudaTensor 21 ScalarType.Half [2, 4, 4])
        twoLengths =
        { self := exampleModule, result := Except.error (Error.InvalidInput x p),
          calls := [] } ∧
      x = CallArg.input :=
  have ⟨x, p, h, hx, _⟩ := forward_rejects_bad_input_or_mask exampleRuntime otherMem
    exampleModule (cudaTensor 20 ScalarType.Half [2, 4, 2])
    (cudaTensor 21 ScalarType.Half [2, 4, 4]) twoLengths (Or.inl (by decide))
  ⟨x, p, h, hx (by decide)⟩

/-! ## Lifetime -/

theorem forwardFault_congr (R : Runtime) (m n : FasterTransformerEncoder)
    (input attr_mask sequence_lengths : Tensor)
    (hst : n._st = m._st) (hpad : n._remove_padding = m._remove_padding) :
    forwardFault R n input attr_mask sequence_lengths =
      forwardFault R m input attr_mask sequence_lengths := by
  unfold forwardFault
  rw [hst, hpad]

theorem kernelCall_congr (R : Runtime) (mem : Mem) (m n : FasterTransformerEncoder)
    (input attr_mask sequence_lengths : Tensor)
    (hpad : n._remove_padding = m._remove_padding) :
    kernelCall R mem n input attr_mask sequence_lengths =
      kernelCall R mem m input attr_mask sequence_lengths := by
  unfold kernelCall
  rw [hpad]

theorem forward_self_stored (R : Runtime) (mem : Mem) (m : FasterTransformerEncoder)
    (input attr_mask sequence_lengths : Tensor) :
    (m.forward R mem input attr_mask sequence_lengths).self._st = m._st ∧
    (m.forward R mem input attr_mask sequence_lengths).self._remove_padding =
      m._remove_padding ∧
    (m.forward R mem input attr_mask sequence_lengths).self.weights = m.weights ∧
    (m.forward R mem input attr_mask sequence_lengths).self.head_info = m.head_info := by
  rw [forward_unfold]
  cases forwardFault R m input attr_mask sequence_lengths <;> exact ⟨rfl, rfl, rfl, rfl⟩

theorem step_stored (R : Runtime) (m : FasterTransformerEncoder) (op : Op) :
    (step R m op).1._st = m._st ∧
    (step R m op).1._remove_padding = m._remove_padding ∧
    (step R m op).1.weights = m.weights ∧ (step R m op).1.head_info = m.head_info := by
  cases op with
  | forward mem input attr_mask sequence_lengths =>
    exact forward_self_stored R mem m input attr_mask sequence_lengths
  | get_pickle_info => exact ⟨rfl, rfl, rfl, rfl⟩

theorem run_stored (R : Runtime) (m : FasterTransformerEncoder) (ops : List Op) :
    (run R m ops).1._st = m._st ∧
    (run R m ops).1._remove_padding = m._remove_padding ∧
    (run R m ops).1.weights = m.weights ∧ (run R m ops).1.head_info = m.head_info := by
  induction ops generalizing m with
  | nil => exact ⟨rfl, rfl, rfl, rfl⟩
  | cons op ops ih =>
    obtain ⟨h1, h2, h3, h4⟩ := ih (step R m op).1
    obtain ⟨g1, g2, g3, g4⟩ := step_stored R m op
    exact ⟨h1.trans g1, h2.trans g2, h3.trans g3, h4.trans g4⟩

theorem get_pickle_info_congr (m n : FasterTransformerEncoder)
    (hw : n.weights = m.weights) (hi : n.head_info = m.head_info) :
    n.get_pickle_info = m.get_pickle_info := by
  unfold FasterTransformerEncoder.get_pickle_info
  rw [hw, hi]

theorem run_pickled (R : Runtime) (m : FasterTransformerEncoder) (ops : List Op)
    (ts : List Tensor) (h : Obs.pickled ts ∈ (run R m ops).2) :
    ts = m.get_pickle_info := by
  induction ops generalizing m with
  | nil => simp [run] at h
  | cons op ops ih =>
    obtain ⟨_, _, g3, g4⟩ := step_stored R m op
    simp only [run, List.mem_cons] at h
    rcases h with h | h
    · cases op with
      | forward mem input attr_mask sequence_lengths => simp [step] at h
      | get_pickle_info =>
        simp only [step, Obs.pickled.injEq] at h
        exact h
    · exact (ih _ h).trans (get_pickle_info_congr _ _ g3 g4)

theorem kernelOutcome_ne_invalidInput (R : Runtime) (m : FasterTransformerEncoder)
    (c : KernelCall) (x : CallArg) (p : Requirement) :
    kernelOutcome R m c ≠ Except.error (Error.InvalidInput x p) := by
  unfold kernelOutcome
  split <;> simp

theorem forward_invalidInput_iff (R : Runtime) (mem : Mem) (m : FasterTransformerEncoder)
    (input attr_mask sequence_lengths : Tensor) (x : CallArg) (p : Requirement) :
    (m.forward R mem input attr_mask sequence_lengths).result =
        Except.error (Error.InvalidInput x p) ↔
      forwardFault R m input attr_mask sequence_lengths =
        some (Error.InvalidInput x p) := by
  rw [forward_unfold]
  cases h : forwardFault R m input attr_mask sequence_lengths with
  | none => simpa using kernelOutcome_ne_invalidInput R m _ x p
  | some e => simp

/-- C9: the module's stored state is constant over its lifetime. For every
module `m` and every sequence `ops` of forward and get_pickle_info calls
(forward calls succeeding or failing alike), the module left behind exports
the same seventeen tensors as `m` and has the scalar type and padding-removal
flag of `m`; every get_pickle_info made along the way returned that same
list; any further forward call is rejected with `InvalidInput` exactly when
`m` itself would reject it, with the same error, and otherwise reaches the
kernel with the same arguments; and a forward call that fails with
`InvalidInput` leaves the module exactly as it was. -/
theorem stored_state_constant (R : Runtime) (m : FasterTransformerEncoder) (ops : List Op) :
    (run R m ops).1.get_pickle_info = m.get_pickle_info ∧
    (run R m ops).1._st = m._st ∧
    (run R m ops).1._remove_padding = m._remove_padding ∧
    (∀ ts, Obs.pickled ts ∈ (run R m ops).2 → ts = m.get_pickle_info) ∧
    (∀ (mem : Mem) (input attr_mask sequence_lengths : Tensor),
      ((run R m ops).1.forward R mem input attr_mask sequence_lengths).calls =
          (m.forward R mem input attr_mask sequence_lengths).calls ∧
      ∀ x p,
        (((run R m ops).1.forward R mem input attr_mask sequence_lengths).result =
            Except.error (Error.InvalidInput x p) ↔
          (m.forward R mem input attr_mask sequence_lengths).result =
            Except.error (Error.InvalidInput x p))) ∧
    (∀ (mem : Mem) (input attr_mask sequence_lengths : Tensor) x p,
      (m.forward R mem input attr_mask sequence_lengths).result =
          Except.error (Error.InvalidInput x p) →
        (m.forward R mem input attr_mask sequence_lengths).self = m ∧
        (m.forward R mem input attr_mask sequence_lengths).calls = []) := by
  obtain ⟨h1, h2, h3, h4⟩ := run_stored R m ops
  refine ⟨get_pickle_info_congr _ _ h3 h4, h1, h2, run_pickled R m ops, ?_, ?_⟩
  · intro mem input attr_mask sequence_lengths
    have hf := forwardFault_congr R m (run R m ops).1 input attr_mask sequence_lengths h1 h2
    have hk := kernelCall_congr R mem m (run R m ops).1 input attr_mask sequence_lengths h2
    constructor
    · rw [forward_unfold, forward_unfold, hf, hk]
      cases forwardFault R m input attr_mask sequence_lengths <;> rfl
    · intro x p
      rw [forward_invalidInput_iff, forward_invalidInput_iff, hf]
  · intro mem input attr_mask sequence_lengths x p h
    have hf := (forward_invalidInput_iff R mem m input attr_mask sequence_lengths x p).mp h
    rw [forward_of_fault R mem m input attr_mask sequence_lengths _ hf]
    exact ⟨rfl, rfl⟩

/-! ## Determinism -/

theorem eraseBuffer_empty_like (mem mem' : Mem) (input : Tensor) :
    (empty_like mem input).eraseBuffer = (empty_like mem' input).eraseBuffer := by
  cases input <;> rfl

theorem withData_empty_like_bitIdentical (mem mem' : Mem) (input : Tensor)
    (written : List Int) :
    ((empty_like mem input).withData written).bitIdentical
      ((empty_like mem' input).withData written) := by
  cases input <;> exact ⟨rfl, rfl, rfl⟩

theorem exampleRuntime_deterministic : exampleRuntime.deterministic := by
  intro h k c d _ _ _ _ hcd
  have hin : c.eraseOutput.input = d.eraseOutput.input := congrArg KernelCall.input hcd
  simp only [KernelCall.eraseOutput] at hin
  simp [exampleRuntime, hin]

/-- C10: determinism of forward. Assume the kernel is a deterministic function
of its arguments that fully overwrites the output buffer
(`Runtime.deterministic`). Then for every module, two forward calls with the
same input, attr_mask and sequence_lengths, the second made on the module the
first left behind, each with its own freshly allocated output buffer of
arbitrary prior contents, give the same result: the same exception, or
tensors of the same shape, scalar type and element payload. -/
theorem forward_deterministic (R : Runtime) (hR : R.deterministic)
    (self : FasterTransformerEncoder) (mem mem' : Mem)
    (input attr_mask sequence_lengths : Tensor) :
    sameResult (self.forward R mem input attr_mask sequence_lengths).result
      ((self.forward R mem input attr_mask sequence_lengths).self.forward R mem' input
        attr_mask sequence_lengths).result := by
  obtain ⟨h1, h2, _, _⟩ := forward_self_stored R mem self input attr_mask sequence_lengths
  generalize hn : (self.forward R mem input attr_mask sequence_lengths).self = n at h1 h2
  have hft : n.ftencoder.T = self.ftencoder.T ∧ n.ftencoder.head_num = self.ftencoder.head_num ∧
      n.ftencoder.head_size = self.ftencoder.head_size ∧
      n.ftencoder.weights = self.ftencoder.weights := by
    rw [← hn, forward_unfold]
    cases forwardFault R self input attr_mask sequence_lengths <;> exact ⟨rfl, rfl, rfl, rfl⟩
  rw [forward_unfold R mem' n, forwardFault_congr R self n _ _ _ h1 h2,
    kernelCall_congr R mem' self n _ _ _ h2, forward_unfold R mem self]
  cases forwardFault R self input attr_mask sequence_lengths with
  | some e => exact rfl
  | none =>
    have hexec :
        (R.execute self.ftencoder
            (kernelCall R mem self input attr_mask sequence_lengths)).2 =
          (R.execute n.ftencoder
            (kernelCall R mem' self input attr_mask sequence_lengths)).2 := by
      apply hR _ _ _ _ hft.1.symm hft.2.1.symm hft.2.2.1.symm hft.2.2.2.symm
      simp only [KernelCall.eraseOutput, kernelCall]
      rw [eraseBuffer_empty_like mem mem' input]
    show sameResult (kernelOutcome R self _) (kernelOutcome R n _)
    unfold kernelOutcome
    rw [hexec]
    cases (R.execute n.ftencoder
      (kernelCall R mem' self input attr_mask sequence_lengths)).2 with
    | error what => exact rfl
    | ok written => exact withData_empty_like_bitIdentical mem mem' input written

/-- Witness for C10: the example runtime is deterministic, and two calls on
the padding-off example module under different allocations agree. -/
theorem forward_deterministic_witness :
    exampleRuntime.deterministic ∧
    sameResult
      (plainModule.forward exampleRuntime exampleMem exampleInput exampleMask
        Tensor.undefined).result
      ((plainModule.forward exampleRuntime exampleMem exampleInput exampleMask
        Tensor.undefined).self.forward exampleRuntime otherMem exampleInput exampleMask
        Tensor.undefined).result :=
  ⟨exampleRuntime_deterministic,
   forward_deterministic exampleRuntime exampleRuntime_deterministic plainModule
     exampleMem otherMem exampleInput exampleMask Tensor.undefined⟩

/-! ## Behaviour when the batch extent fits a 32-bit int -/

theorem toInt32_of_fits (b : Int) (h : -2147483648 ≤ b ∧ b < 2147483648) :
    toInt32 b = b := by
  unfold toInt32
  norm_num
  omega

/-- With padding removal on and a batch extent that fits a 32-bit int, a
`sequence_lengths` that is undefined, empty, not int32 or whose first
dimension differs from the batch extent is rejected before the kernel. -/
theorem forward_rejects_bad_sequence_lengths_of_fits (R : Runtime) (mem : Mem)
    (self : FasterTransformerEncoder) (input attr_mask sequence_lengths : Tensor)
    (b : Int) (rest : List Int)
    (hpad : self._remove_padding = true)
    (hin : input.is_cuda = true ∧ input.is_contiguous = true ∧
      input.scalar_type = self._st)
    (hmask : attr_mask.is_cuda = true ∧ attr_mask.is_contiguous = true ∧
      attr_mask.scalar_type = self._st)
    (hsizes : input.sizes = some (b :: rest))
    (hfits : -2147483648 ≤ b ∧ b < 2147483648)
    (hbad : sequence_lengths = Tensor.undefined ∨ sequence_lengths.numel = 0 ∨
      sequence_lengths.scalar_type ≠ ScalarType.Int ∨ sequence_lengths.size0 ≠ some b) :
    ∃ p, self.forward R mem input attr_mask sequence_lengths =
      { self := self,
        result := Except.error (Error.InvalidInput CallArg.sequence_lengths p),
        calls := [] } := by
  have hseq : ∃ p, seqFault (toInt32 (arrayRefGet R.stray (b :: rest) 0)) sequence_lengths =
      some p := by
    have hb : toInt32 (arrayRefGet R.stray (b :: rest) 0) = b := by
      simpa [arrayRefGet] using toInt32_of_fits b hfits
    rw [hb]
    cases hf : seqFault b sequence_lengths with
    | some p => exact ⟨p, rfl⟩
    | none =>
      exfalso
      obtain ⟨s1, _, s3, s4, s5⟩ := (seqFault_none_iff b sequence_lengths).mp hf
      rcases hbad with rfl | h0 | ht | hn
      · simp [Tensor.is_cuda] at s1
      · exact s4 h0
      · exact ht s3
      · exact hn s5
  obtain ⟨p, hp⟩ := hseq
  refine ⟨p, forward_of_fault R mem self input attr_mask sequence_lengths _ ?_⟩
  simp [forwardFault, hsizes, (firstFault_none_iff _ _).mpr hin,
    (firstFault_none_iff _ _).mpr hmask, hpad, hp]

/-- A valid call whose batch extent fits a 32-bit int, on which the kernel
raises no failure, returns a tensor of the shape and scalar type of input. -/
theorem forward_returns_like_input_of_fits (R : Runtime) (mem : Mem)
    (self : FasterTransformerEncoder) (input attr_mask sequence_lengths : Tensor)
    (b : Int) (rest : List Int) (written : List Int)
    (hin : input.is_cuda = true ∧ input.is_contiguous = true ∧
      input.scalar_type = self._st)
    (hmask : attr_mask.is_cuda = true ∧ attr_mask.is_contiguous = true ∧
      attr_mask.scalar_type = self._st)
    (hsizes : input.sizes = some (b :: rest))
    (hfits : -2147483648 ≤ b ∧ b < 2147483648)
    (hseq : self._remove_padding = true →
      sequence_lengths.is_cuda = true ∧ sequence_lengths.is_contiguous = true ∧
      sequence_lengths.scalar_type = ScalarType.Int ∧ sequence_lengths.numel ≠ 0 ∧
      sequence_lengths.size0 = some b)
    (hkernel : (R.execute self.ftencoder
        (kernelCall R mem self input attr_mask sequence_lengths)).2 = Except.ok written) :
    ∃ out, (self.forward R mem input attr_mask sequence_lengths).result = Except.ok out ∧
      out.sizes = input.sizes ∧ out.scalar_type = input.scalar_type ∧
      out.data = written := by
  have hb : toInt32 (arrayRefGet R.stray (b :: rest) 0) = b := by
    simpa [arrayRefGet] using toInt32_of_fits b hfits
  have hpass : forwardFault R self input attr_mask sequence_lengths = none := by
    cases hpad : self._remove_padding with
    | false => exact forwardFault_of_padding_off R self input attr_mask _ hpad hin hmask
    | true =>
      obtain ⟨s1, s2, s3, s4, s5⟩ := hseq hpad
      simp [forwardFault, hsizes, (firstFault_none_iff _ _).mpr hin,
        (firstFault_none_iff _ _).mpr hmask, hpad, hb,
        (seqFault_none_iff b sequence_lengths).mpr ⟨s1, s2, s3, s4, s5⟩]
  rw [forward_of_pass R mem self input attr_mask sequence_lengths hpass]
  refine ⟨(empty_like mem input).withData written, ?_, ?_, ?_, ?_⟩
  · show kernelOutcome R self _ = _
    unfold kernelOutcome
    rw [hkernel]
    rfl
  all_goals
    cases input with
    | undefined => simp [Tensor.sizes] at hsizes
    | defined t => rfl

/-! ## What an accepted call guarantees -/

theorem forward_calls_ne_nil_iff (R : Runtime) (mem : Mem) (self : FasterTransformerEncoder)
    (input attr_mask sequence_lengths : Tensor) :
    (self.forward R mem input attr_mask sequence_lengths).calls ≠ [] ↔
      forwardFault R self input attr_mask sequence_lengths = none := by
  rw [forward_unfold]
  cases forwardFault R self input attr_mask sequence_lengths <;> simp

theorem seqFault_none_of_pass (R : Runtime) (self : FasterTransformerEncoder)
    (input attr_mask sequence_lengths : Tensor) (input_size : List Int)
    (hpad : self._remove_padding = true) (hsizes : input.sizes = some input_size)
    (h : forwardFault R self input attr_mask sequence_lengths = none) :
    seqFault (toInt32 (arrayRefGet R.stray input_size 0)) sequence_lengths = none := by
  unfold forwardFault at h
  rw [hsizes] at h
  simp only [hpad, if_true] at h
  cases h1 : firstFault input self._st with
  | some p => simp [h1] at h
  | none =>
    cases h2 : firstFault attr_mask self._st with
    | some p => simp [h1, h2] at h
    | none => simpa [h1, h2] using h

/-- C11, as stated, fails: the example module has padding removal on, and the
call with the example input (batch extent 2) and the 2 x 3 int32 tensor
`twoByThreeLengths` is accepted, the kernel is reached, yet that
`sequence_lengths` has six elements, not one per batch element. -/
theorem accepted_sequence_lengths_numel_can_differ :
    ¬ ∀ (R : Runtime) (mem : Mem) (self : FasterTransformerEncoder)
        (input attr_mask sequence_lengths : Tensor),
        self._remove_padding = true →
        (self.forward R mem input attr_mask sequence_lengths).calls ≠ [] →
        sequence_lengths.is_cuda = true ∧ sequence_lengths.is_contiguous = true ∧
        sequence_lengths.scalar_type = ScalarType.Int ∧ sequence_lengths.numel ≠ 0 ∧
        sequence_lengths.size0 = input.size0 ∧
        some sequence_lengths.numel = input.size0 := by
  intro h
  have hacc : (exampleModule.forward exampleRuntime otherMem exampleInput exampleMask
      twoByThreeLengths).calls ≠ [] :=
    (forward_calls_ne_nil_iff _ _ _ _ _ _).mpr (by decide)
  have := (h exampleRuntime otherMem exampleModule exampleInput exampleMask
    twoByThreeLengths rfl hacc).2.2.2.2.2
  revert this
  decide

/-- C11, amended: for every module with padding removal on, whenever forward
accepts a call (reaches the kernel) whose batch extent `input.size(0)` fits a
32-bit int, `sequence_lengths` is on-device, contiguous, of int32 type,
non-empty, and its first dimension equals `input.size(0)`. Its further
dimensions are not checked; when it is one-dimensional, its number of
elements equals `input.size(0)`. -/
theorem accepted_sequence_lengths_of_fits (R : Runtime) (mem : Mem)
    (self : FasterTransformerEncoder) (input attr_mask sequence_lengths : Tensor)
    (b : Int) (rest : List Int)
    (hpad : self._remove_padding = true)
    (hsizes : input.sizes = some (b :: rest))
    (hfits : -2147483648 ≤ b ∧ b < 2147483648)
    (hacc : (self.forward R mem input attr_mask sequence_lengths).calls ≠ []) :
    sequence_lengths.is_cuda = true ∧ sequence_lengths.is_contiguous = true ∧
    sequence_lengths.scalar_type = ScalarType.Int ∧ sequence_lengths.numel ≠ 0 ∧
    sequence_lengths.size0 = some b ∧
    (∀ n, sequence_lengths.sizes = some [n] → sequence_lengths.numel = b) := by
  have hpass := (forward_calls_ne_nil_iff _ _ _ _ _ _).mp hacc
  have hseq := seqFault_none_of_pass R self input attr_mask sequence_lengths _ hpad hsizes hpass
  have hb : toInt32 (arrayRefGet R.stray (b :: rest) 0) = b := by
    simpa [arrayRefGet] using toInt32_of_fits b hfits
  rw [hb] at hseq
  obtain ⟨s1, s2, s3, s4, s5⟩ := (seqFault_none_iff b sequence_lengths).mp hseq
  refine ⟨s1, s2, s3, s4, s5, ?_⟩
  intro n hn
  cases sequence_lengths with
  | undefined => simp [Tensor.sizes] at hn
  | defined t =>
    simp only [Tensor.sizes, Option.some.injEq] at hn
    simp only [Tensor.size0, hn, List.head?_cons, Option.some.injEq] at s5
    simp [Tensor.numel, hn, s5]

/-- Witness for C11, amended: the example module accepts the example input
(batch extent 2) with the two-entry `twoLengths`. -/
theorem accepted_sequence_lengths_of_fits_witness :
    twoLengths.is_cuda = true ∧ twoLengths.is_contiguous = true ∧
    twoLengths.scalar_type = ScalarType.Int ∧ twoLengths.numel ≠ 0 ∧
    twoLengths.size0 = some 2 ∧
    (∀ n, twoLengths.sizes = some [n] → twoLengths.numel = 2) :=
  accepted_sequence_lengths_of_fits exampleRuntime otherMem exampleModule exampleInput
    exampleMask twoLengths 2 [4, 2] rfl rfl (by decide)
    ((forward_calls_ne_nil_iff _ _ _ _ _ _).mpr (by decide))

/-! ## The arguments the kernel receives -/

/-- C12 fails on the code: the padding-off example module accepts the input of
batch extent 2^32 + 2 and invokes the kernel exactly once, with the caller's
tensors and the module's flag, but with batch_size = 2: the `int batch_size`
of line 85 cannot hold `input.size(0)`. -/
theorem kernel_receives_wrapped_batch_size :
    hugeInput.sizes = some [4294967298, 1, 1] ∧
    (plainModule.forward exampleRuntime otherMem hugeInput hugeMask
        Tensor.undefined).calls.length = 1 ∧
    (plainModule.forward exampleRuntime otherMem hugeInput hugeMask
        Tensor.undefined).calls.map
      (fun c => (c.batch_size, c.seq_len, c.remove_padding)) = [(2, 1, false)] ∧
    (plainModule.forward exampleRuntime otherMem hugeInput hugeMask
        Tensor.undefined).calls.map
      (fun c => (c.input, c.attr_mask, c.sequence_lengths)) =
        [(hugeInput, hugeMask, Tensor.undefined)] := by
  have h : forwardFault exampleRuntime plainModule hugeInput hugeMask Tensor.undefined =
      none := by
    decide
  rw [forward_of_pass _ _ _ _ _ _ h]
  exact ⟨rfl, rfl, by decide, rfl⟩

/-- An accepted call whose batch extent and sequence extent fit a 32-bit int
invokes the kernel exactly once, with batch_size = input.size(0),
seq_len = input.size(1), the caller's tensors, a fresh output shaped like
input, and the flag fixed at construction. -/
theorem forward_kernel_call_of_fits (R : Runtime) (mem : Mem)
    (self : FasterTransformerEncoder) (input attr_mask sequence_lengths : Tensor)
    (b l : Int) (rest : List Int)
    (hsizes : input.sizes = some (b :: l :: rest))
    (hb : -2147483648 ≤ b ∧ b < 2147483648)
    (hl : -2147483648 ≤ l ∧ l < 2147483648)
    (hacc : (self.forward R mem input attr_mask sequence_lengths).calls ≠ []) :
    (self.forward R mem input attr_mask sequence_lengths).calls =
      [{ batch_size := b, seq_len := l, input := input, attr_mask := attr_mask,
         output := empty_like mem input, sequence_lengths := sequence_lengths,
         remove_padding := self._remove_padding }] := by
  have hpass := (forward_calls_ne_nil_iff _ _ _ _ _ _).mp hacc
  rw [forward_of_pass R mem self input attr_mask sequence_lengths hpass]
  simp [kernelCall, hsizes, arrayRefGet, toInt32_of_fits b hb, toInt32_of_fits l hl]

/-! ## Order of validation and dispatch -/

/-- C13: validation precedes dispatch and kernel creation. For every weight
set in which some tensor fails a check (device, contiguity, or scalar type
against q_kernel's) and q_kernel's scalar type is neither Float nor Half,
construction fails with `InvalidWeight`, naming the first tensor in parameter
order that fails and the first property it fails (device before contiguity
before type), not with `UnsupportedPrecision`; and in every failing
construction, whatever the error, no kernel handle is allocated. -/
theorem validation_precedes_dispatch (R : Runtime) (mem : Mem)
    (head_num head_size : Int) (remove_padding : Bool) (w : WeightArgs) :
    (∀ x : WeightName,
      ¬ ((w.get x).is_cuda = true ∧ (w.get x).is_contiguous = true ∧
        (w.get x).scalar_type = w.q_kernel.scalar_type) →
      w.q_kernel.scalar_type ≠ ScalarType.Float ∧
        w.q_kernel.scalar_type ≠ ScalarType.Half →
      (FasterTransformerEncoder.FasterTransformerEncoder R mem head_num head_size
          remove_padding w).result ≠ Except.error Error.UnsupportedPrecision ∧
      ∃ pre y post p, WeightName.all = pre ++ y :: post ∧
        (∀ z ∈ pre, (w.get z).is_cuda = true ∧ (w.get z).is_contiguous = true ∧
          (w.get z).scalar_type = w.q_kernel.scalar_type) ∧
        firstFault (w.get y) w.q_kernel.scalar_type = some p ∧
        FasterTransformerEncoder.FasterTransformerEncoder R mem head_num head_size
          remove_padding w =
            { result := Except.error (Error.InvalidWeight y p), handles := [] }) ∧
    (∀ e, (FasterTransformerEncoder.FasterTransformerEncoder R mem head_num head_size
          remove_padding w).result = Except.error e →
      (FasterTransformerEncoder.FasterTransformerEncoder R mem head_num head_size
          remove_padding w).handles = []) := by
  constructor
  · intro x hx _
    rcases checkWeights_cases w w.q_kernel.scalar_type WeightName.all with hc | ⟨e, hc⟩
    · have hnone := (checkWeights_ok_iff _ _ _).mp hc x (mem_all x)
      exact absurd ((firstFault_none_iff _ _).mp hnone) hx
    · obtain ⟨pre, y, post, p, hs, hpre, hy, rfl⟩ := checkWeights_error_elim _ _ _ _ hc
      have hctor := ctor_of_fault R mem head_num head_size remove_padding w _ hc
      refine ⟨?_, pre, y, post, p, hs,
        fun z hz => (firstFault_none_iff _ _).mp (hpre z hz), hy, hctor⟩
      rw [hctor]
      simp
  · intro e he
    rcases checkWeights_cases w w.q_kernel.scalar_type WeightName.all with hc | ⟨f, hc⟩
    · cases hp : precisionOf w.q_kernel.scalar_type with
      | none => rw [ctor_of_unsupported R mem head_num head_size remove_padding w hc hp]
      | some T =>
        rw [ctor_of_supported R mem head_num head_size remove_padding w T hc hp] at he
        simp at he
    · rw [ctor_of_fault R mem head_num head_size remove_padding w f hc]

/-- Witness for C13: in the double weight set whose `k_kernel` is not
contiguous a tensor fails a check and the type is unsupported; construction
fails on `k_kernel` and allocates no handle. -/
theorem validation_precedes_dispatch_witness :
    ((FasterTransformerEncoder.FasterTransformerEncoder exampleRuntime exampleMem 2 1 false
        doubleStridedWeights).result ≠ Except.error Error.UnsupportedPrecision ∧
      ∃ pre y post p, WeightName.all = pre ++ y :: post ∧
        (∀ z ∈ pre, (doubleStridedWeights.get z).is_cuda = true ∧
          (doubleStridedWeights.get z).is_contiguous = true ∧
          (doubleStridedWeights.get z).scalar_type =
            doubleStridedWeights.q_kernel.scalar_type) ∧
        firstFault (doubleStridedWeights.get y) doubleStridedWeights.q_kernel.scalar_type =
          some p ∧
        FasterTransformerEncoder.FasterTransformerEncoder exampleRuntime exampleMem 2 1 false
          doubleStridedWeights =
            { result := Except.error (Error.InvalidWeight y p), handles := [] }) ∧
    FasterTransformerEncoder.FasterTransformerEncoder exampleRuntime exampleMem 2 1 false
        doubleStridedWeights =
      { result :=
          Except.error (Error.InvalidWeight WeightName.k_kernel Requirement.contiguous),
        handles := [] } :=
  ⟨(validation_precedes_dispatch exampleRuntime exampleMem 2 1 false
      doubleStridedWeights).1 WeightName.k_kernel (by decide) (by decide),
   ctor_of_fault exampleRuntime exampleMem 2 1 false doubleStridedWeights _ rfl⟩

/-! ## When construction succeeds -/

theorem ctor_ok_iff_checks (R : Runtime) (mem : Mem) (head_num head_size : Int)
    (remove_padding : Bool) (w : WeightArgs) :
    (∃ m, (FasterTransformerEncoder.FasterTransformerEncoder R mem head_num head_size
        remove_padding w).result = Except.ok m) ↔
      checkWeights w w.q_kernel.scalar_type WeightName.all = Except.ok () ∧
      ∃ T, precisionOf w.q_kernel.scalar_type = some T := by
  constructor
  · rintro ⟨m, hm⟩
    obtain ⟨T, hc, hp, _⟩ := ctor_ok_elim R mem head_num head_size remove_padding w m hm
    exact ⟨hc, T, hp⟩
  · rintro ⟨hc, T, hp⟩
    exact ⟨_, by rw [ctor_of_supported R mem head_num head_size remove_padding w T hc hp]⟩

theorem precisionOf_some_iff (st : ScalarType) :
    (∃ T, precisionOf st = some T) ↔ st = ScalarType.Float ∨ st = ScalarType.Half := by
  cases st <;> simp [precisionOf]

/-- C14: construction succeeds if and only if all sixteen tensors are
on-device and contiguous, the fifteen tensors after q_kernel have q_kernel's
scalar type, and that type is Float or Half. The outcome depends on nothing
else: a construction with other head_num, head_size and remove_padding (and
another runtime and allocation) on a weight set whose tensors have the same
device, contiguity and scalar type, whatever their shapes and contents,
succeeds exactly when this one does. -/
theorem construction_succeeds_iff (R : Runtime) (mem : Mem)
    (head_num head_size : Int) (remove_padding : Bool) (w : WeightArgs) :
    ((∃ m, (FasterTransformerEncoder.FasterTransformerEncoder R mem head_num head_size
        remove_padding w).result = Except.ok m) ↔
      (∀ x : WeightName, (w.get x).is_cuda = true ∧ (w.get x).is_contiguous = true) ∧
      (∀ x : WeightName, x ≠ WeightName.q_kernel →
        (w.get x).scalar_type = w.q_kernel.scalar_type) ∧
      (w.q_kernel.scalar_type = ScalarType.Float ∨
        w.q_kernel.scalar_type = ScalarType.Half)) ∧
    (∀ (Q : Runtime) (mem' : Mem) (head_num' head_size' : Int) (remove_padding' : Bool)
        (v : WeightArgs),
      (∀ x : WeightName, (v.get x).is_cuda = (w.get x).is_cuda ∧
        (v.get x).is_contiguous = (w.get x).is_contiguous ∧
        (v.get x).scalar_type = (w.get x).scalar_type) →
      ((∃ n, (FasterTransformerEncoder.FasterTransformerEncoder Q mem' head_num' head_size'
          remove_padding' v).result = Except.ok n) ↔
        ∃ m, (FasterTransformerEncoder.FasterTransformerEncoder R mem head_num head_size
          remove_padding w).result = Except.ok m)) := by
  have key : ∀ (Q : Runtime) (mem' : Mem) (a b : Int) (r : Bool) (v : WeightArgs),
      (∃ n, (FasterTransformerEncoder.FasterTransformerEncoder Q mem' a b r v).result =
        Except.ok n) ↔
      (∀ x : WeightName, (v.get x).is_cuda = true ∧ (v.get x).is_contiguous = true) ∧
      (∀ x : WeightName, x ≠ WeightName.q_kernel →
        (v.get x).scalar_type = v.q_kernel.scalar_type) ∧
      (v.q_kernel.scalar_type = ScalarType.Float ∨
        v.q_kernel.scalar_type = ScalarType.Half) := by
    intro Q mem' a b r v
    rw [ctor_ok_iff_checks, checkWeights_ok_iff, precisionOf_some_iff]
    constructor
    · rintro ⟨hall, hst⟩
      have h := fun x => (firstFault_none_iff _ _).mp (hall x (mem_all x))
      exact ⟨fun x => ⟨(h x).1, (h x).2.1⟩, fun x _ => (h x).2.2, hst⟩
    · rintro ⟨hres, hty, hst⟩
      refine ⟨fun x _ => (firstFault_none_iff _ _).mpr ⟨(hres x).1, (hres x).2, ?_⟩, hst⟩
      by_cases hx : x = WeightName.q_kernel
      · rw [hx]; rfl
      · exact hty x hx
  refine ⟨key R mem head_num head_size remove_padding w, ?_⟩
  intro Q mem' a b r v hv
  rw [key Q mem' a b r v, key R mem head_num head_size remove_padding w]
  have hq : v.q_kernel.scalar_type = w.q_kernel.scalar_type := (hv WeightName.q_kernel).2.2
  constructor
  · rintro ⟨h1, h2, h3⟩
    refine ⟨fun x => ?_, fun x hx => ?_, hq ▸ h3⟩
    · rw [← (hv x).1, ← (hv x).2.1]; exact h1 x
    · rw [← (hv x).2.2, ← hq]; exact h2 x hx
  · rintro ⟨h1, h2, h3⟩
    refine ⟨fun x => ?_, fun x hx => ?_, hq.symm ▸ h3⟩
    · rw [(hv x).1, (hv x).2.1]; exact h1 x
    · rw [(hv x).2.2, hq]; exact h2 x hx

/-- Witness for C14: a float weight set of shapes that fit no hidden
dimension, with head_num = -3 and head_size = 0, is accepted. -/
theorem construction_succeeds_iff_witness :
    ∃ m, (FasterTransformerEncoder.FasterTransformerEncoder exampleRuntime exampleMem (-3) 0
        false misshapenWeights).result = Except.ok m :=
  (construction_succeeds_iff exampleRuntime exampleMem (-3) 0 false misshapenWeights).1.mpr
    ⟨by intro x; cases x <;> decide, by intro x _; cases x <;> decide, Or.inl rfl⟩

end torch_ths
